import Mathlib

/-!
# Job collector of the Slurm exporter

A shallow embedding of `internal/collector/job.go`: the state classifier
`calculateJobState`, the resource tally `getJobResourceAlloc` / `calculateJobTres`,
the assembler `calculateJobMetrics` and the reader boundary `getJobMetrics`.

Go's `uint` is taken at its 64-bit width: a counter is a `Nat`, and every `++`, `+=`
and conversion to `uint` in the source is followed here by an explicit `% 2 ^ 64`.
The signed fields of the API records (`int32`, `int64`) are `Int`s.
A pointer field `*T` is an `Option T`, and `ptr.Deref p d` is `p.getD d`.
-/

namespace Collector

/-! ## Machine arithmetic -/

/-- The statement `x++` on a `uint`. -/
def uintInc (x : Nat) : Nat := (x + 1) % 2 ^ 64

/-- The statement `x += y` on `uint`s. -/
def uintAdd (x y : Nat) : Nat := (x + y) % 2 ^ 64

/-- The conversion `uint(v)` of a signed integer: the value modulo `2 ^ 64`. -/
def uintOfInt (v : Int) : Nat := (v % 2 ^ 64).toNat

/-- The number of low bits that `float64(x)` drops: 0 while `x` is below `2 ^ 53`, and one
more for each halving that is needed to come below `2 ^ 53`. -/
def float64Shift : Nat → Nat → Nat
  | 0, _ => 0
  | fuel + 1, x => if x < 2 ^ 53 then 0 else float64Shift fuel (x / 2) + 1

/-- The conversion `float64(x)` of a `uint`, as the natural number that the result denotes:
`x` rounded to a significand of 53 bits, to the nearest value and on a tie to the even one. -/
def float64OfUint (x : Nat) : Nat :=
  let e := float64Shift 64 x
  let q := x / 2 ^ e
  let r := x % 2 ^ e
  let q := if 2 ^ e < 2 * r ∨ (2 * r = 2 ^ e ∧ q % 2 = 1) then q + 1 else q
  q * 2 ^ e

/-! ## Records of the scheduler API that the collector reads -/

/-- The constants of `api.V0043JobInfoJobState` named by the collector and its tests. -/
inductive V0043JobInfoJobState where
  | BOOTFAIL
  | CANCELLED
  | COMPLETED
  | COMPLETING
  | CONFIGURING
  | DEADLINE
  | FAILED
  | LAUNCHFAILED
  | NODEFAIL
  | OUTOFMEMORY
  | PENDING
  | POWERUPNODE
  | PREEMPTED
  | RECONFIGFAIL
  | REQUEUED
  | REQUEUEFED
  | REQUEUEHOLD
  | RESIZING
  | RESVDELHOLD
  | REVOKED
  | RUNNING
  | SIGNALING
  | SPECIALEXIT
  | STAGEOUT
  | STOPPED
  | SUSPENDED
  | TIMEOUT
  deriving DecidableEq, Repr

/-- The `Cpus` member of an allocation record (`Count`, `Used` are `*int32`). -/
structure V0043JobResNodeCpus where
  Count : Option Int := none
  Used : Option Int := none
  deriving DecidableEq, Repr

/-- The `Memory` member of an allocation record (`Allocated`, `Used` are `*int64`). -/
structure V0043JobResNodeMemory where
  Allocated : Option Int := none
  Used : Option Int := none
  deriving DecidableEq, Repr

/-- One allocation record `api.V0043JobResNode`, with the members the collector reads. -/
structure V0043JobResNode where
  Cpus : Option V0043JobResNodeCpus := none
  Memory : Option V0043JobResNodeMemory := none
  deriving DecidableEq, Repr

/-- The `Nodes` member of `api.V0043JobRes`; `Allocation` is a `*api.V0043JobResNodes`,
a pointer to a slice of allocation records. -/
structure V0043JobResNodes where
  Allocation : Option (List V0043JobResNode) := none
  deriving DecidableEq, Repr

/-- The record `api.V0043JobRes`; its zero value has `Nodes == nil`. -/
structure V0043JobRes where
  Nodes : Option V0043JobResNodes := none
  deriving DecidableEq, Repr

/-- The job record `types.V0043JobInfo`, with the members the collector reads. -/
structure V0043JobInfo where
  JobState : Option (List V0043JobInfoJobState) := none
  Hold : Option Bool := none
  JobResources : Option V0043JobRes := none
  deriving DecidableEq, Repr

/-- The list `types.V0043JobInfoList`. -/
structure V0043JobInfoList where
  Items : List V0043JobInfo := []
  deriving DecidableEq, Repr

/-- Modelled from the spec: the set type returned by `GetStateAsSet` lives in the client
library, outside the collector. The state set is "the set of state tokens attached to one
entity"; it is kept as the list of its members and only observed through `Has`. -/
abbrev StateSet := List V0043JobInfoJobState

/-- Modelled from the spec: `states.Has(token)` of the client library, membership of a
token in the state set. -/
def StateSet.Has (states : StateSet) (token : V0043JobInfoJobState) : Bool :=
  decide (token ∈ states)

/-- Modelled from the spec: `job.GetStateAsSet()` of the client library, the set of the
tokens in `JobState`, empty when `JobState` is nil. -/
def V0043JobInfo.GetStateAsSet (job : V0043JobInfo) : StateSet :=
  job.JobState.getD []

/-! ## The collector's own records -/

/-- The counters `JobStates`. -/
structure JobStates where
  total : Nat := 0
  BootFail : Nat := 0
  Cancelled : Nat := 0
  Completed : Nat := 0
  Deadline : Nat := 0
  Failed : Nat := 0
  Pending : Nat := 0
  Preempted : Nat := 0
  Running : Nat := 0
  Suspended : Nat := 0
  Timeout : Nat := 0
  NodeFail : Nat := 0
  OutOfMemory : Nat := 0
  Completing : Nat := 0
  Configuring : Nat := 0
  PowerUpNode : Nat := 0
  StageOut : Nat := 0
  Hold : Nat := 0
  deriving DecidableEq, Repr

/-- The accumulators `JobTres`. -/
structure JobTres where
  total : Nat := 0
  CpusAlloc : Nat := 0
  MemoryAlloc : Nat := 0
  deriving DecidableEq, Repr

/-- The pair `jobResources` returned by `getJobResourceAlloc`. -/
structure jobResources where
  Cpus : Nat := 0
  Memory : Nat := 0
  deriving DecidableEq, Repr

/-- The snapshot `JobMetrics`. -/
structure JobMetrics where
  JobCount : Nat := 0
  JobStates : JobStates := {}
  JobTres : JobTres := {}
  deriving DecidableEq, Repr

/-! ## The functions of `job.go` -/

/-- The function `calculateJobState` (job.go, lines 153-200): `total++`, the `switch` over
the base tokens, the four flag tests, the `Hold` test. -/
def calculateJobState (metrics : JobStates) (job : V0043JobInfo) : JobStates :=
  let metrics := { metrics with total := uintInc metrics.total }
  let states := job.GetStateAsSet
  -- Base States
  let metrics :=
    if states.Has .BOOTFAIL then { metrics with BootFail := uintInc metrics.BootFail }
    else if states.Has .CANCELLED then { metrics with Cancelled := uintInc metrics.Cancelled }
    else if states.Has .COMPLETED then { metrics with Completed := uintInc metrics.Completed }
    else if states.Has .DEADLINE then { metrics with Deadline := uintInc metrics.Deadline }
    else if states.Has .FAILED then { metrics with Failed := uintInc metrics.Failed }
    else if states.Has .PENDING then { metrics with Pending := uintInc metrics.Pending }
    else if states.Has .PREEMPTED then { metrics with Preempted := uintInc metrics.Preempted }
    else if states.Has .RUNNING then { metrics with Running := uintInc metrics.Running }
    else if states.Has .SUSPENDED then { metrics with Suspended := uintInc metrics.Suspended }
    else if states.Has .TIMEOUT then { metrics with Timeout := uintInc metrics.Timeout }
    else if states.Has .NODEFAIL then { metrics with NodeFail := uintInc metrics.NodeFail }
    else if states.Has .OUTOFMEMORY then
      { metrics with OutOfMemory := uintInc metrics.OutOfMemory }
    else metrics
  -- Flag States
  let metrics :=
    if states.Has .COMPLETING then { metrics with Completing := uintInc metrics.Completing }
    else metrics
  let metrics :=
    if states.Has .CONFIGURING then { metrics with Configuring := uintInc metrics.Configuring }
    else metrics
  let metrics :=
    if states.Has .POWERUPNODE then { metrics with PowerUpNode := uintInc metrics.PowerUpNode }
    else metrics
  let metrics :=
    if states.Has .STAGEOUT then { metrics with StageOut := uintInc metrics.StageOut }
    else metrics
  -- Other States
  let metrics :=
    if job.Hold.getD false then { metrics with Hold := uintInc metrics.Hold }
    else metrics
  metrics

/-- The function `getJobResourceAlloc` (job.go, lines 214-230). -/
def getJobResourceAlloc (job : V0043JobInfo) : jobResources :=
  let res : jobResources := {}
  let jobRes := job.JobResources.getD {}
  match jobRes.Nodes with
  | none => res
  | some nodes =>
    let jobResNode := nodes.Allocation.getD []
    jobResNode.foldl
      (fun res resNode =>
        let res :=
          match resNode.Cpus with
          | some cpus => { res with Cpus := uintAdd res.Cpus (uintOfInt (cpus.Count.getD 0)) }
          | none => res
        let res :=
          match resNode.Memory with
          | some memory =>
            { res with Memory := uintAdd res.Memory (uintOfInt (memory.Allocated.getD 0)) }
          | none => res
        res)
      res

/-- The function `calculateJobTres` (job.go, lines 202-207). -/
def calculateJobTres (metrics : JobTres) (job : V0043JobInfo) : JobTres :=
  let metrics := { metrics with total := uintInc metrics.total }
  let res := getJobResourceAlloc job
  let metrics := { metrics with CpusAlloc := uintAdd metrics.CpusAlloc res.Cpus }
  let metrics := { metrics with MemoryAlloc := uintAdd metrics.MemoryAlloc res.Memory }
  metrics

/-- The function `calculateJobMetrics` (job.go, lines 142-151): the count is
`uint(len(jobList.Items))`, the other counters start at zero and every job of the list
passes through `calculateJobState` and `calculateJobTres`. -/
def calculateJobMetrics (jobList : V0043JobInfoList) : JobMetrics :=
  let metrics : JobMetrics := { JobCount := uintOfInt jobList.Items.length }
  jobList.Items.foldl
    (fun metrics job =>
      { metrics with
        JobStates := calculateJobState metrics.JobStates job
        JobTres := calculateJobTres metrics.JobTres job })
    metrics

/-- The error value of Go. -/
structure GoError where
  text : String
  deriving DecidableEq, Repr

/-- The client seen from the job collector: `List(ctx, jobList)` receives the list object,
returns it as the call left it, together with the error (`none` for nil). -/
structure Client where
  List : V0043JobInfoList → V0043JobInfoList × Option GoError

/-- The method `getJobMetrics` (job.go, lines 133-140); the result pair is
`(*JobMetrics, error)`, `none` standing for nil. -/
def getJobMetrics (slurmClient : Client) : Option JobMetrics × Option GoError :=
  let jobList : V0043JobInfoList := {}
  match slurmClient.List jobList with
  | (_, some err) => (none, some err)
  | (jobList, none) =>
    let metrics := calculateJobMetrics jobList
    (some metrics, none)

/-- The client as a stateful object: a `List` call receives the state of the client and the
list object, and returns the new state, the list object as the call left it and the error. -/
structure StatefulClient (σ : Type) where
  List : σ → V0043JobInfoList → σ × V0043JobInfoList × Option GoError

/-- The method `getJobMetrics` (job.go, lines 133-140) once more, with the state of the client
passed through: the result is the state of the client after the method and the pair that the
method returns. -/
def getJobMetricsStateful {σ : Type} (slurmClient : StatefulClient σ) (s : σ) :
    σ × Option JobMetrics × Option GoError :=
  let jobList : V0043JobInfoList := {}
  match slurmClient.List s jobList with
  | (s, _, some err) => (s, none, some err)
  | (s, jobList, none) =>
    let metrics := calculateJobMetrics jobList
    (s, some metrics, none)

/-! ## The exposition side of `job.go` -/

/-- Modelled from the spec: the value types of the metrics library ("all emitted values are
gauges"); the library is outside the collector. -/
inductive ValueType where
  | CounterValue
  | GaugeValue
  | UntypedValue
  deriving DecidableEq, Repr

/-- Modelled from the spec: a descriptor of the metrics library, "a name, a help string,
and (optionally) a label set". -/
structure Desc where
  fqName : String
  help : String
  variableLabels : List String
  constLabels : List (String × String)
  deriving DecidableEq, Repr

/-- Modelled from the spec: `prometheus.NewDesc`; a nil label argument is the empty list. -/
def NewDesc (fqName help : String) (variableLabels : List String)
    (constLabels : List (String × String)) : Desc :=
  { fqName := fqName, help := help, variableLabels := variableLabels,
    constLabels := constLabels }

/-- Modelled from the spec: a metric point, "one labeled point with the field's accumulated
value"; `F` is the type of `float64` values. -/
structure Metric (F : Type) where
  desc : Desc
  valueType : ValueType
  value : F
  deriving DecidableEq, Repr

/-- Modelled from the spec: `prometheus.MustNewConstMetric` without label values. -/
def MustNewConstMetric {F : Type} (desc : Desc) (valueType : ValueType) (value : F) :
    Metric F :=
  { desc := desc, valueType := valueType, value := value }

/-- The record `jobStatesCollector`. -/
structure jobStatesCollector where
  BootFail : Desc
  Cancelled : Desc
  Completed : Desc
  Deadline : Desc
  Failed : Desc
  Pending : Desc
  Preempted : Desc
  Running : Desc
  Suspended : Desc
  Timeout : Desc
  NodeFail : Desc
  OutOfMemory : Desc
  Completing : Desc
  Configuring : Desc
  PowerUpNode : Desc
  StageOut : Desc
  Hold : Desc

/-- The record `jobTresCollector`. -/
structure jobTresCollector where
  CpusAlloc : Desc
  MemoryAlloc : Desc

/-- The record `jobCollector`. -/
structure jobCollector where
  slurmClient : Client
  JobCount : Desc
  JobStates : jobStatesCollector
  JobTres : jobTresCollector

/-- The constructor `NewJobCollector` (job.go, lines 19-53). -/
def NewJobCollector (slurmClient : Client) : jobCollector :=
  { slurmClient := slurmClient
    JobCount := NewDesc "slurm_jobs_total" "Total number of jobs" [] []
    JobStates :=
      { BootFail := NewDesc "slurm_jobs_bootfail_total" "Number of jobs in BootFail state" [] []
        Cancelled :=
          NewDesc "slurm_jobs_cancelled_total" "Number of jobs in Cancelled state" [] []
        Completed :=
          NewDesc "slurm_jobs_completed_total" "Number of jobs in Completed state" [] []
        Deadline := NewDesc "slurm_jobs_deadline_total" "Number of jobs in Deadline state" [] []
        Failed := NewDesc "slurm_jobs_failed_total" "Number of jobs in Failed state" [] []
        Pending := NewDesc "slurm_jobs_pending_total" "Number of jobs in Pending state" [] []
        Preempted :=
          NewDesc "slurm_jobs_preempted_total" "Number of jobs in Preempted state" [] []
        Running := NewDesc "slurm_jobs_running_total" "Number of jobs in Running state" [] []
        Suspended :=
          NewDesc "slurm_jobs_suspended_total" "Number of jobs in Suspended state" [] []
        Timeout := NewDesc "slurm_jobs_timeout_total" "Number of jobs in Timeout state" [] []
        NodeFail := NewDesc "slurm_jobs_nodefail_total" "Number of jobs in NodeFail state" [] []
        OutOfMemory :=
          NewDesc "slurm_jobs_outofmemory_total" "Number of jobs in OutOfMemory state" [] []
        Completing :=
          NewDesc "slurm_jobs_completing_total" "Number of jobs with Completing flag" [] []
        Configuring :=
          NewDesc "slurm_jobs_configuring_total" "Number of jobs with Configuring flag" [] []
        PowerUpNode :=
          NewDesc "slurm_jobs_powerupnode_total" "Number of jobs with PowerUpNode flag" [] []
        StageOut := NewDesc "slurm_jobs_stageout_total" "Number of jobs with StageOut flag" [] []
        Hold := NewDesc "slurm_jobs_hold_total" "Number of jobs with Hold flag" [] [] }
    JobTres :=
      { CpusAlloc :=
          NewDesc "slurm_jobs_cpus_alloc_total" "Number of Allocated CPUs among jobs" [] []
        MemoryAlloc :=
          NewDesc "slurm_jobs_memory_alloc_bytes" "Amount of Allocated Memory (MB) among jobs"
            [] [] } }

/-- The method `Collect` (job.go, lines 97-131). The channel is the list of the points sent
so far, a send appends to it; the result is the channel when the method returns, and `none`
if it does not return (a nil snapshot dereferenced). The conversion `float64(x)` of a counter
is the parameter `float64`; the log lines are left out. -/
def jobCollector.Collect {F : Type} (float64 : Nat → F) (c : jobCollector)
    (ch : List (Metric F)) : Option (List (Metric F)) :=
  match getJobMetrics c.slurmClient with
  | (_, some _) => some ch
  | (none, none) => none
  | (some metrics, none) =>
    let ch := ch ++ [MustNewConstMetric c.JobCount .GaugeValue (float64 metrics.JobCount)]
    -- States
    let ch := ch ++ [MustNewConstMetric c.JobStates.BootFail .GaugeValue
      (float64 metrics.JobStates.BootFail)]
    let ch := ch ++ [MustNewConstMetric c.JobStates.Cancelled .GaugeValue
      (float64 metrics.JobStates.Cancelled)]
    let ch := ch ++ [MustNewConstMetric c.JobStates.Completed .GaugeValue
      (float64 metrics.JobStates.Completed)]
    let ch := ch ++ [MustNewConstMetric c.JobStates.Deadline .GaugeValue
      (float64 metrics.JobStates.Deadline)]
    let ch := ch ++ [MustNewConstMetric c.JobStates.Failed .GaugeValue
      (float64 metrics.JobStates.Failed)]
    let ch := ch ++ [MustNewConstMetric c.JobStates.Pending .GaugeValue
      (float64 metrics.JobStates.Pending)]
    let ch := ch ++ [MustNewConstMetric c.JobStates.Preempted .GaugeValue
      (float64 metrics.JobStates.Preempted)]
    let ch := ch ++ [MustNewConstMetric c.JobStates.Running .GaugeValue
      (float64 metrics.JobStates.Running)]
    let ch := ch ++ [MustNewConstMetric c.JobStates.Suspended .GaugeValue
      (float64 metrics.JobStates.Suspended)]
    let ch := ch ++ [MustNewConstMetric c.JobStates.Timeout .GaugeValue
      (float64 metrics.JobStates.Timeout)]
    let ch := ch ++ [MustNewConstMetric c.JobStates.NodeFail .GaugeValue
      (float64 metrics.JobStates.NodeFail)]
    let ch := ch ++ [MustNewConstMetric c.JobStates.OutOfMemory .GaugeValue
      (float64 metrics.JobStates.OutOfMemory)]
    let ch := ch ++ [MustNewConstMetric c.JobStates.Completing .GaugeValue
      (float64 metrics.JobStates.Completing)]
    let ch := ch ++ [MustNewConstMetric c.JobStates.Configuring .GaugeValue
      (float64 metrics.JobStates.Configuring)]
    let ch := ch ++ [MustNewConstMetric c.JobStates.PowerUpNode .GaugeValue
      (float64 metrics.JobStates.PowerUpNode)]
    let ch := ch ++ [MustNewConstMetric c.JobStates.StageOut .GaugeValue
      (float64 metrics.JobStates.StageOut)]
    let ch := ch ++ [MustNewConstMetric c.JobStates.Hold .GaugeValue
      (float64 metrics.JobStates.Hold)]
    -- Tres
    let ch := ch ++ [MustNewConstMetric c.JobTres.CpusAlloc .GaugeValue
      (float64 metrics.JobTres.CpusAlloc)]
    let ch := ch ++ [MustNewConstMetric c.JobTres.MemoryAlloc .GaugeValue
      (float64 metrics.JobTres.MemoryAlloc)]
    some ch

/-! ## Fixtures of the test suite (`collector_test.go`, `job_test.go`) -/

/-- The fixture `job0`: RUNNING, one allocation record `{8, 1024}`. -/
def job0 : V0043JobInfo :=
  { JobState := some [.RUNNING]
    JobResources := some
      { Nodes := some
          { Allocation := some
              [{ Cpus := some { Count := some 8 }, Memory := some { Allocated := some 1024 } }] } } }

/-- The fixture `job1`: PENDING, held, no `JobResources`. -/
def job1 : V0043JobInfo :=
  { JobState := some [.PENDING], Hold := some true }

/-- The fixture `job2`: RUNNING, allocation records `{8, 1024}` and `{4, 2048}`. -/
def job2 : V0043JobInfo :=
  { JobState := some [.RUNNING]
    JobResources := some
      { Nodes := some
          { Allocation := some
              [{ Cpus := some { Count := some 8 }, Memory := some { Allocated := some 1024 } },
               { Cpus := some { Count := some 4 }, Memory := some { Allocated := some 2048 } }] } } }

/-- The fixture `job3`: PENDING, no `JobResources`. -/
def job3 : V0043JobInfo :=
  { JobState := some [.PENDING] }

/-- The fixture `jobList`. -/
def jobList : V0043JobInfoList :=
  { Items := [job0, job1, job2, job3] }

/-- The job of the test case "all states, all flags" of `Test_calculateJobState`. -/
def allStatesAllFlagsJob : V0043JobInfo :=
  { JobState := some
      [.BOOTFAIL, .CANCELLED, .COMPLETED, .COMPLETING, .CONFIGURING, .DEADLINE, .FAILED,
       .LAUNCHFAILED, .NODEFAIL, .OUTOFMEMORY, .PENDING, .POWERUPNODE, .PREEMPTED,
       .RECONFIGFAIL, .REQUEUED, .REQUEUEFED, .REQUEUEHOLD, .RESIZING, .RESVDELHOLD,
       .REVOKED, .RUNNING, .SIGNALING, .SPECIALEXIT, .STAGEOUT, .STOPPED, .SUSPENDED,
       .TIMEOUT]
    Hold := some true }

/-- A client whose `List` call succeeds and leaves `items` in the list object
(`testDataClient` is such a client for `jobList`). -/
def clientReturning (items : V0043JobInfoList) : Client :=
  { List := fun _ => (items, none) }

/-- A client whose `List` call fails with `err` and leaves the list object as it received
it (`testFailClient`, whose interceptor returns an error at once). -/
def clientFailing (err : GoError) : Client :=
  { List := fun jobList => (jobList, some err) }

/-- The fixture `testDataClient`, seen from the job collector. -/
def testDataClient : Client := clientReturning jobList

/-- The fixture `testFailClient`: every `List` call returns the text of HTTP status 500. -/
def testFailClient : Client := clientFailing { text := "Internal Server Error" }

/-- A job that carries a flag token and an unrecognized token, and no base token. -/
def flagOnlyJob : V0043JobInfo := { JobState := some [.COMPLETING, .REQUEUED] }

/-- A list of one running job whose single allocation record holds 1 cpu and `2 ^ 54 + 1` of
memory. -/
def largeMemoryJobList : V0043JobInfoList :=
  { Items :=
      [{ JobState := some [.RUNNING]
         JobResources := some
           { Nodes := some
               { Allocation := some
                   [{ Cpus := some { Count := some 1 },
                      Memory := some { Allocated := some 18014398509481985 } }] } } }] }

/-! ## The words of the specification -/

/-- The twelve base buckets of a job. -/
inductive BaseBucket where
  | BootFail
  | Cancelled
  | Completed
  | Deadline
  | Failed
  | Pending
  | Preempted
  | Running
  | Suspended
  | Timeout
  | NodeFail
  | OutOfMemory
  deriving DecidableEq, Repr

/-- The state token that a base bucket counts. -/
def BaseBucket.token : BaseBucket → V0043JobInfoJobState
  | .BootFail => .BOOTFAIL
  | .Cancelled => .CANCELLED
  | .Completed => .COMPLETED
  | .Deadline => .DEADLINE
  | .Failed => .FAILED
  | .Pending => .PENDING
  | .Preempted => .PREEMPTED
  | .Running => .RUNNING
  | .Suspended => .SUSPENDED
  | .Timeout => .TIMEOUT
  | .NodeFail => .NODEFAIL
  | .OutOfMemory => .OUTOFMEMORY

/-- The counter of a base bucket inside `JobStates`. -/
def JobStates.base (metrics : JobStates) : BaseBucket → Nat
  | .BootFail => metrics.BootFail
  | .Cancelled => metrics.Cancelled
  | .Completed => metrics.Completed
  | .Deadline => metrics.Deadline
  | .Failed => metrics.Failed
  | .Pending => metrics.Pending
  | .Preempted => metrics.Preempted
  | .Running => metrics.Running
  | .Suspended => metrics.Suspended
  | .Timeout => metrics.Timeout
  | .NodeFail => metrics.NodeFail
  | .OutOfMemory => metrics.OutOfMemory

/-- The fixed priority order of the specification: "BootFail, Cancelled, Completed,
Deadline, Failed, Pending, Preempted, Running, Suspended, Timeout, NodeFail, OutOfMemory". -/
def jobBaseOrder : List BaseBucket :=
  [.BootFail, .Cancelled, .Completed, .Deadline, .Failed, .Pending,
   .Preempted, .Running, .Suspended, .Timeout, .NodeFail, .OutOfMemory]

/-- The specification's winner: "the first bucket in priority order whose token is present
in the entity's state set", `none` when no base token is present. -/
def firstBaseBucket (states : StateSet) : Option BaseBucket :=
  jobBaseOrder.find? (fun b => states.Has b.token)

/-- The allocation records of a job, `JobResources.Nodes.Allocation`; a job without
`JobResources`, without `Nodes` or without `Allocation` has none. -/
def allocationRecords (job : V0043JobInfo) : List V0043JobResNode :=
  match job.JobResources with
  | none => []
  | some jobRes =>
    match jobRes.Nodes with
    | none => []
    | some nodes => nodes.Allocation.getD []

/-- The cpu count of an allocation record, `Cpus.Count`; an absent field counts zero. -/
def cpuCount (resNode : V0043JobResNode) : Int :=
  match resNode.Cpus with
  | none => 0
  | some cpus => cpus.Count.getD 0

/-- The memory amount of an allocation record, `Memory.Allocated`; an absent field counts
zero. -/
def memoryAllocated (resNode : V0043JobResNode) : Int :=
  match resNode.Memory with
  | none => 0
  | some memory => memory.Allocated.getD 0

/-- A single job whose allocation list is the concatenation of the allocation records of
all of `jobs`, with any state tokens and any `Hold`. -/
def concatenatedJob (state : Option (List V0043JobInfoJobState)) (hold : Option Bool)
    (jobs : List V0043JobInfo) : V0043JobInfo :=
  { JobState := state
    Hold := hold
    JobResources := some
      { Nodes := some { Allocation := some (jobs.map allocationRecords).flatten } } }

/-- The sum of the twelve base buckets. -/
def baseSum (metrics : JobStates) : Nat :=
  (jobBaseOrder.map metrics.base).sum

/-- Whether the state set of a job holds at least one of the twelve base tokens. -/
def hasBaseToken (job : V0043JobInfo) : Bool :=
  jobBaseOrder.any (fun b => job.GetStateAsSet.Has b.token)

/-- The sixteen tokens that `calculateJobState` tests: the twelve base tokens and the four
flag tokens. -/
def recognizedTokens : List V0043JobInfoJobState :=
  [.BOOTFAIL, .CANCELLED, .COMPLETED, .DEADLINE, .FAILED, .PENDING, .PREEMPTED, .RUNNING,
   .SUSPENDED, .TIMEOUT, .NODEFAIL, .OUTOFMEMORY,
   .COMPLETING, .CONFIGURING, .POWERUPNODE, .STAGEOUT]

/-- The seventeen buckets of `JobStates`: twelve base, four flag, Hold. -/
def JobStates.buckets (metrics : JobStates) : List Nat :=
  [metrics.BootFail, metrics.Cancelled, metrics.Completed, metrics.Deadline, metrics.Failed,
   metrics.Pending, metrics.Preempted, metrics.Running, metrics.Suspended, metrics.Timeout,
   metrics.NodeFail, metrics.OutOfMemory, metrics.Completing, metrics.Configuring,
   metrics.PowerUpNode, metrics.StageOut, metrics.Hold]

/-- All allocation records of all jobs of a list, in order. -/
def allAllocationRecords (jobList : V0043JobInfoList) : List V0043JobResNode :=
  (jobList.Items.map allocationRecords).flatten

/-- The fields of a snapshot that are exposed, each with its descriptor, in the order "JobCount,
the twelve base buckets, Completing, Configuring, PowerUpNode, StageOut, Hold, CpusAlloc,
MemoryAlloc". -/
def snapshotFields (c : jobCollector) (metrics : JobMetrics) : List (Desc × Nat) :=
  [(c.JobCount, metrics.JobCount),
   (c.JobStates.BootFail, metrics.JobStates.BootFail),
   (c.JobStates.Cancelled, metrics.JobStates.Cancelled),
   (c.JobStates.Completed, metrics.JobStates.Completed),
   (c.JobStates.Deadline, metrics.JobStates.Deadline),
   (c.JobStates.Failed, metrics.JobStates.Failed),
   (c.JobStates.Pending, metrics.JobStates.Pending),
   (c.JobStates.Preempted, metrics.JobStates.Preempted),
   (c.JobStates.Running, metrics.JobStates.Running),
   (c.JobStates.Suspended, metrics.JobStates.Suspended),
   (c.JobStates.Timeout, metrics.JobStates.Timeout),
   (c.JobStates.NodeFail, metrics.JobStates.NodeFail),
   (c.JobStates.OutOfMemory, metrics.JobStates.OutOfMemory),
   (c.JobStates.Completing, metrics.JobStates.Completing),
   (c.JobStates.Configuring, metrics.JobStates.Configuring),
   (c.JobStates.PowerUpNode, metrics.JobStates.PowerUpNode),
   (c.JobStates.StageOut, metrics.JobStates.StageOut),
   (c.JobStates.Hold, metrics.JobStates.Hold),
   (c.JobTres.CpusAlloc, metrics.JobTres.CpusAlloc),
   (c.JobTres.MemoryAlloc, metrics.JobTres.MemoryAlloc)]

/-- A gauge point on a descriptor, with the value of a counter converted by `float64`. -/
def gaugePoint {F : Type} (float64 : Nat → F) (field : Desc × Nat) : Metric F :=
  { desc := field.1, valueType := .GaugeValue, value := float64 field.2 }

/-- What a stateful client answers to a call made in state `s`. -/
def StatefulClient.answer {σ : Type} (slurmClient : StatefulClient σ) (s : σ) : Client :=
  { List := fun jobList => (slurmClient.List s jobList).2 }

/-- A client that answers like `inner` and keeps the log of the `List` calls it received, each
with the list object passed. -/
def recordingClient (inner : Client) : StatefulClient (List V0043JobInfoList) :=
  { List := fun calls jobList => (calls ++ [jobList], inner.List jobList) }

/-- A job whose allocation list is `records`, with any state tokens and any `Hold`. -/
def jobWithRecords (state : Option (List V0043JobInfoJobState)) (hold : Option Bool)
    (records : List V0043JobResNode) : V0043JobInfo :=
  { JobState := state
    Hold := hold
    JobResources := some { Nodes := some { Allocation := some records } } }

/-- Field-wise addition of two snapshots in Go's `uint`, the sum modulo `2 ^ 64`. -/
def JobMetrics.add (x y : JobMetrics) : JobMetrics :=
  { JobCount := uintAdd x.JobCount y.JobCount
    JobStates :=
      { total := uintAdd x.JobStates.total y.JobStates.total
        BootFail := uintAdd x.JobStates.BootFail y.JobStates.BootFail
        Cancelled := uintAdd x.JobStates.Cancelled y.JobStates.Cancelled
        Completed := uintAdd x.JobStates.Completed y.JobStates.Completed
        Deadline := uintAdd x.JobStates.Deadline y.JobStates.Deadline
        Failed := uintAdd x.JobStates.Failed y.JobStates.Failed
        Pending := uintAdd x.JobStates.Pending y.JobStates.Pending
        Preempted := uintAdd x.JobStates.Preempted y.JobStates.Preempted
        Running := uintAdd x.JobStates.Running y.JobStates.Running
        Suspended := uintAdd x.JobStates.Suspended y.JobStates.Suspended
        Timeout := uintAdd x.JobStates.Timeout y.JobStates.Timeout
        NodeFail := uintAdd x.JobStates.NodeFail y.JobStates.NodeFail
        OutOfMemory := uintAdd x.JobStates.OutOfMemory y.JobStates.OutOfMemory
        Completing := uintAdd x.JobStates.Completing y.JobStates.Completing
        Configuring := uintAdd x.JobStates.Configuring y.JobStates.Configuring
        PowerUpNode := uintAdd x.JobStates.PowerUpNode y.JobStates.PowerUpNode
        StageOut := uintAdd x.JobStates.StageOut y.JobStates.StageOut
        Hold := uintAdd x.JobStates.Hold y.JobStates.Hold }
    JobTres :=
      { total := uintAdd x.JobTres.total y.JobTres.total
        CpusAlloc := uintAdd x.JobTres.CpusAlloc y.JobTres.CpusAlloc
        MemoryAlloc := uintAdd x.JobTres.MemoryAlloc y.JobTres.MemoryAlloc } }

/-- The descriptors of a job collector, in the order of `snapshotFields`. -/
def jobCollector.descriptors (c : jobCollector) : List Desc :=
  (snapshotFields c {}).map Prod.fst

/-- The base buckets as they are written inside a metric name. -/
def baseStateLabels : List String :=
  ["bootfail", "cancelled", "completed", "deadline", "failed", "pending", "preempted",
   "running", "suspended", "timeout", "nodefail", "outofmemory"]

/-- The flag buckets, Hold included, as they are written inside a metric name. -/
def flagLabels : List String :=
  ["completing", "configuring", "powerupnode", "stageout", "hold"]

/-! ## Auxiliary definitions of the proofs -/

/-- The `switch` of `calculateJobState` on its own. -/
def baseStep (states : StateSet) (metrics : JobStates) : JobStates :=
  if states.Has .BOOTFAIL then { metrics with BootFail := uintInc metrics.BootFail }
  else if states.Has .CANCELLED then { metrics with Cancelled := uintInc metrics.Cancelled }
  else if states.Has .COMPLETED then { metrics with Completed := uintInc metrics.Completed }
  else if states.Has .DEADLINE then { metrics with Deadline := uintInc metrics.Deadline }
  else if states.Has .FAILED then { metrics with Failed := uintInc metrics.Failed }
  else if states.Has .PENDING then { metrics with Pending := uintInc metrics.Pending }
  else if states.Has .PREEMPTED then { metrics with Preempted := uintInc metrics.Preempted }
  else if states.Has .RUNNING then { metrics with Running := uintInc metrics.Running }
  else if states.Has .SUSPENDED then { metrics with Suspended := uintInc metrics.Suspended }
  else if states.Has .TIMEOUT then { metrics with Timeout := uintInc metrics.Timeout }
  else if states.Has .NODEFAIL then { metrics with NodeFail := uintInc metrics.NodeFail }
  else if states.Has .OUTOFMEMORY then
    { metrics with OutOfMemory := uintInc metrics.OutOfMemory }
  else metrics

/-- A counter after a guarded `++`. -/
def bump (c : Bool) (x : Nat) : Nat := if c then uintInc x else x

/-- Whether base bucket `b` is the winner for `states`. -/
def wins (states : StateSet) (b : BaseBucket) : Bool :=
  decide (firstBaseBucket states = some b)

/-- The body of the loop of `getJobResourceAlloc` on its own. -/
def allocStep (res : jobResources) (resNode : V0043JobResNode) : jobResources :=
  let res :=
    match resNode.Cpus with
    | some cpus => { res with Cpus := uintAdd res.Cpus (uintOfInt (cpus.Count.getD 0)) }
    | none => res
  let res :=
    match resNode.Memory with
    | some memory =>
      { res with Memory := uintAdd res.Memory (uintOfInt (memory.Allocated.getD 0)) }
    | none => res
  res

/-- The body of the loop of `calculateJobMetrics` on its own. -/
def metricsStep (metrics : JobMetrics) (job : V0043JobInfo) : JobMetrics :=
  { metrics with
    JobStates := calculateJobState metrics.JobStates job
    JobTres := calculateJobTres metrics.JobTres job }

/-- A counter after one guarded `++` per job of a list. -/
def tally (p : V0043JobInfo → Bool) (x : Nat) (jobs : List V0043JobInfo) : Nat :=
  jobs.foldl (fun x job => bump (p job) x) x

/-! ## The classifier in closed form -/

theorem uintInc_ne (x : Nat) : uintInc x ≠ x := by
  unfold uintInc
  omega

theorem firstBaseBucket_eq (s : StateSet) :
    firstBaseBucket s =
      if s.Has .BOOTFAIL then some .BootFail
      else if s.Has .CANCELLED then some .Cancelled
      else if s.Has .COMPLETED then some .Completed
      else if s.Has .DEADLINE then some .Deadline
      else if s.Has .FAILED then some .Failed
      else if s.Has .PENDING then some .Pending
      else if s.Has .PREEMPTED then some .Preempted
      else if s.Has .RUNNING then some .Running
      else if s.Has .SUSPENDED then some .Suspended
      else if s.Has .TIMEOUT then some .Timeout
      else if s.Has .NODEFAIL then some .NodeFail
      else if s.Has .OUTOFMEMORY then some .OutOfMemory
      else none := by
  simp only [firstBaseBucket, jobBaseOrder, List.find?, BaseBucket.token]
  repeat (first | rfl | (cases s.Has _ <;> simp only [Bool.false_eq_true, if_true, if_false]))

theorem baseStep_eq (s : StateSet) (m : JobStates) :
    baseStep s m =
      { m with
        BootFail := bump (wins s .BootFail) m.BootFail
        Cancelled := bump (wins s .Cancelled) m.Cancelled
        Completed := bump (wins s .Completed) m.Completed
        Deadline := bump (wins s .Deadline) m.Deadline
        Failed := bump (wins s .Failed) m.Failed
        Pending := bump (wins s .Pending) m.Pending
        Preempted := bump (wins s .Preempted) m.Preempted
        Running := bump (wins s .Running) m.Running
        Suspended := bump (wins s .Suspended) m.Suspended
        Timeout := bump (wins s .Timeout) m.Timeout
        NodeFail := bump (wins s .NodeFail) m.NodeFail
        OutOfMemory := bump (wins s .OutOfMemory) m.OutOfMemory } := by
  simp only [baseStep, wins, firstBaseBucket_eq]
  repeat (first | rfl | (cases s.Has _ <;> simp only [Bool.false_eq_true, if_true, if_false]))

/-- Every field of the result of `calculateJobState`, spelled out. -/
theorem calculateJobState_eq (m : JobStates) (job : V0043JobInfo) :
    calculateJobState m job =
      { total := uintInc m.total
        BootFail := bump (wins job.GetStateAsSet .BootFail) m.BootFail
        Cancelled := bump (wins job.GetStateAsSet .Cancelled) m.Cancelled
        Completed := bump (wins job.GetStateAsSet .Completed) m.Completed
        Deadline := bump (wins job.GetStateAsSet .Deadline) m.Deadline
        Failed := bump (wins job.GetStateAsSet .Failed) m.Failed
        Pending := bump (wins job.GetStateAsSet .Pending) m.Pending
        Preempted := bump (wins job.GetStateAsSet .Preempted) m.Preempted
        Running := bump (wins job.GetStateAsSet .Running) m.Running
        Suspended := bump (wins job.GetStateAsSet .Suspended) m.Suspended
        Timeout := bump (wins job.GetStateAsSet .Timeout) m.Timeout
        NodeFail := bump (wins job.GetStateAsSet .NodeFail) m.NodeFail
        OutOfMemory := bump (wins job.GetStateAsSet .OutOfMemory) m.OutOfMemory
        Completing := bump (job.GetStateAsSet.Has .COMPLETING) m.Completing
        Configuring := bump (job.GetStateAsSet.Has .CONFIGURING) m.Configuring
        PowerUpNode := bump (job.GetStateAsSet.Has .POWERUPNODE) m.PowerUpNode
        StageOut := bump (job.GetStateAsSet.Has .STAGEOUT) m.StageOut
        Hold := bump (job.Hold.getD false) m.Hold } := by
  have h : calculateJobState m job =
      (fun x : JobStates =>
        if job.Hold.getD false then { x with Hold := uintInc x.Hold } else x)
      ((fun x : JobStates =>
        if job.GetStateAsSet.Has .STAGEOUT then { x with StageOut := uintInc x.StageOut }
        else x)
      ((fun x : JobStates =>
        if job.GetStateAsSet.Has .POWERUPNODE then
          { x with PowerUpNode := uintInc x.PowerUpNode }
        else x)
      ((fun x : JobStates =>
        if job.GetStateAsSet.Has .CONFIGURING then
          { x with Configuring := uintInc x.Configuring }
        else x)
      ((fun x : JobStates =>
        if job.GetStateAsSet.Has .COMPLETING then
          { x with Completing := uintInc x.Completing }
        else x)
      (baseStep job.GetStateAsSet { m with total := uintInc m.total }))))) := rfl
  rw [h, baseStep_eq]
  cases job.Hold.getD false <;> cases job.GetStateAsSet.Has .STAGEOUT <;>
  cases job.GetStateAsSet.Has .POWERUPNODE <;> cases job.GetStateAsSet.Has .CONFIGURING <;>
  cases job.GetStateAsSet.Has .COMPLETING <;> rfl

theorem calculateJobState_base (m : JobStates) (job : V0043JobInfo) (b : BaseBucket) :
    (calculateJobState m job).base b = bump (wins job.GetStateAsSet b) (m.base b) := by
  rw [calculateJobState_eq]
  cases b <;> rfl

/-! ## The resource tally in closed form -/

theorem getJobResourceAlloc_eq_foldl (job : V0043JobInfo) :
    getJobResourceAlloc job = (allocationRecords job).foldl allocStep {} := by
  rcases job with ⟨st, hold, _ | ⟨_ | nodes⟩⟩ <;> rfl

theorem uintOfInt_lt (v : Int) : uintOfInt v < 2 ^ 64 := by
  unfold uintOfInt
  have h1 : (0 : Int) ≤ v % 2 ^ 64 := Int.emod_nonneg _ (by norm_num)
  have h2 : v % 2 ^ 64 < 2 ^ 64 := Int.emod_lt_of_pos _ (by norm_num)
  omega

theorem allocStep_Cpus (res : jobResources) (r : V0043JobResNode) :
    (allocStep res r).Cpus = 
      if r.Cpus.isSome then (res.Cpus + uintOfInt (cpuCount r)) % 2 ^ 64 else res.Cpus := by
  rcases r with ⟨_ | c, _ | m⟩ <;> rfl

theorem allocStep_Memory (res : jobResources) (r : V0043JobResNode) :
    (allocStep res r).Memory = 
      if r.Memory.isSome then (res.Memory + uintOfInt (memoryAllocated r)) % 2 ^ 64
      else res.Memory := by
  rcases r with ⟨_ | c, _ | m⟩ <;> rfl

theorem cpuCount_of_none (r : V0043JobResNode) (h : r.Cpus.isSome = false) :
    uintOfInt (cpuCount r) = 0 := by
  rcases r with ⟨_ | c, m⟩
  · rfl
  · simp at h

theorem memoryAllocated_of_none (r : V0043JobResNode) (h : r.Memory.isSome = false) :
    uintOfInt (memoryAllocated r) = 0 := by
  rcases r with ⟨c, _ | m⟩
  · rfl
  · simp at h

theorem foldl_allocStep (rs : List V0043JobResNode) :
    ∀ res : jobResources, res.Cpus < 2 ^ 64 → res.Memory < 2 ^ 64 →
      rs.foldl allocStep res =
        { Cpus := (res.Cpus + (rs.map (fun r => uintOfInt (cpuCount r))).sum) % 2 ^ 64
          Memory := (res.Memory + (rs.map (fun r => uintOfInt (memoryAllocated r))).sum) % 2 ^ 64 } := by
  induction rs with
  | nil =>
    intro res hc hm
    simp only [List.foldl_nil, List.map_nil, List.sum_nil, Nat.add_zero]
    rw [Nat.mod_eq_of_lt hc, Nat.mod_eq_of_lt hm]
  | cons r rs ih =>
    intro res hc hm
    have hc2 : (allocStep res r).Cpus < 2 ^ 64 := by
      rw [allocStep_Cpus]; split
      · exact Nat.mod_lt _ (by norm_num)
      · exact hc
    have hm2 : (allocStep res r).Memory < 2 ^ 64 := by
      rw [allocStep_Memory]; split
      · exact Nat.mod_lt _ (by norm_num)
      · exact hm
    rw [List.foldl_cons, ih _ hc2 hm2, allocStep_Cpus, allocStep_Memory]
    simp only [List.map_cons, List.sum_cons]
    congr 1
    · by_cases h : r.Cpus.isSome = true
      · simp only [h, if_true]; omega
      · simp only [h]
        rw [cpuCount_of_none r (by simpa using h)]
        simp
    · by_cases h : r.Memory.isSome = true
      · simp only [h, if_true]; omega
      · simp only [h]
        rw [memoryAllocated_of_none r (by simpa using h)]
        simp

theorem getJobResourceAlloc_eq (job : V0043JobInfo) :
    getJobResourceAlloc job =
      { Cpus := ((allocationRecords job).map (fun r => uintOfInt (cpuCount r))).sum % 2 ^ 64
        Memory := ((allocationRecords job).map (fun r => uintOfInt (memoryAllocated r))).sum % 2 ^ 64 } := by
  rw [getJobResourceAlloc_eq_foldl, foldl_allocStep _ _ (by show 0 < 2 ^ 64; norm_num) (by show 0 < 2 ^ 64; norm_num)]
  show jobResources.mk ((0 + _) % _) ((0 + _) % _) = _
  simp only [Nat.zero_add]

theorem uintOfInt_of_nonneg_lt (v : Int) (h0 : 0 ≤ v) (h1 : v < 2 ^ 64) :
    ((uintOfInt v : Nat) : Int) = v := by
  unfold uintOfInt
  rw [Int.emod_eq_of_lt h0 h1]
  exact Int.toNat_of_nonneg h0

theorem sum_uintOfInt {α : Type} (f : α → Int) (l : List α)
    (h0 : ∀ x ∈ l, 0 ≤ f x) (h1 : (l.map f).sum < 2 ^ 64) :
    (((l.map (fun x => uintOfInt (f x))).sum : Nat) : Int) = (l.map f).sum := by
  induction l with
  | nil => rfl
  | cons a l ih =>
    have ha : 0 ≤ f a := h0 a (List.mem_cons_self _ _)
    have hl : ∀ x ∈ l, 0 ≤ f x := fun x hx => h0 x (List.mem_cons_of_mem _ hx)
    have hs : 0 ≤ (l.map f).sum := by
      apply List.sum_nonneg
      intro y hy
      obtain ⟨x, hx, rfl⟩ := List.mem_map.1 hy
      exact hl x hx
    simp only [List.map_cons, List.sum_cons] at h1 ⊢
    rw [Nat.cast_add, ih hl (by omega), uintOfInt_of_nonneg_lt _ ha (by omega)]

/-! ## The assembler in closed form -/

theorem calculateJobMetrics_eq_foldl (jobList : V0043JobInfoList) :
    calculateJobMetrics jobList =
      jobList.Items.foldl metricsStep { JobCount := uintOfInt jobList.Items.length } := rfl

theorem foldl_metricsStep (jobs : List V0043JobInfo) :
    ∀ m : JobMetrics, jobs.foldl metricsStep m =
      { JobCount := m.JobCount
        JobStates := jobs.foldl calculateJobState m.JobStates
        JobTres := jobs.foldl calculateJobTres m.JobTres } := by
  induction jobs with
  | nil => intro m; rfl
  | cons j js ih => intro m; rw [List.foldl_cons, ih]; rfl

theorem calculateJobMetrics_eq (jobList : V0043JobInfoList) :
    calculateJobMetrics jobList =
      { JobCount := uintOfInt jobList.Items.length
        JobStates := jobList.Items.foldl calculateJobState {}
        JobTres := jobList.Items.foldl calculateJobTres {} } := by
  rw [calculateJobMetrics_eq_foldl, foldl_metricsStep]

theorem foldl_calculateJobTres (jobs : List V0043JobInfo) :
    ∀ m : JobTres, m.total < 2 ^ 64 → m.CpusAlloc < 2 ^ 64 → m.MemoryAlloc < 2 ^ 64 →
      jobs.foldl calculateJobTres m =
        { total := (m.total + jobs.length) % 2 ^ 64
          CpusAlloc :=
            (m.CpusAlloc + (jobs.map (fun j => (getJobResourceAlloc j).Cpus)).sum) % 2 ^ 64
          MemoryAlloc :=
            (m.MemoryAlloc + (jobs.map (fun j => (getJobResourceAlloc j).Memory)).sum)
              % 2 ^ 64 } := by
  induction jobs with
  | nil =>
    intro m ht hc hm
    simp only [List.foldl_nil, List.map_nil, List.sum_nil, List.length_nil, Nat.add_zero]
    rw [Nat.mod_eq_of_lt ht, Nat.mod_eq_of_lt hc, Nat.mod_eq_of_lt hm]
  | cons j js ih =>
    intro m ht hc hm
    have hp : (0 : Nat) < 2 ^ 64 := by norm_num
    rw [List.foldl_cons, ih _ (Nat.mod_lt _ hp) (Nat.mod_lt _ hp) (Nat.mod_lt _ hp)]
    simp only [calculateJobTres, uintInc, uintAdd, List.map_cons, List.sum_cons,
      List.length_cons]
    congr 1 <;> omega

theorem foldl_calculateJobState_total (jobs : List V0043JobInfo) :
    ∀ m : JobStates, m.total < 2 ^ 64 →
      (jobs.foldl calculateJobState m).total = (m.total + jobs.length) % 2 ^ 64 := by
  induction jobs with
  | nil => intro m ht; simp only [List.foldl_nil, List.length_nil, Nat.add_zero]; rw [Nat.mod_eq_of_lt ht]
  | cons j js ih =>
    intro m ht
    have hp : (0 : Nat) < 2 ^ 64 := by norm_num
    have hstep : (calculateJobState m j).total = (m.total + 1) % 2 ^ 64 := by
      rw [calculateJobState_eq]; rfl
    rw [List.foldl_cons, ih _ (by rw [hstep]; exact Nat.mod_lt _ hp), hstep, List.length_cons]
    omega

theorem sum_map_mod (l : List Nat) (n : Nat) :
    (l.map (fun x => x % n)).sum % n = l.sum % n := by
  induction l with
  | nil => rfl
  | cons a l ih =>
    simp only [List.map_cons, List.sum_cons]
    rw [Nat.add_mod, ih, Nat.mod_mod, ← Nat.add_mod]

theorem allocationRecords_concatenatedJob (state : Option (List V0043JobInfoJobState))
    (hold : Option Bool) (jobs : List V0043JobInfo) :
    allocationRecords (concatenatedJob state hold jobs) = (jobs.map allocationRecords).flatten :=
  rfl

theorem sum_getJobResourceAlloc_Cpus (jobs : List V0043JobInfo) :
    (jobs.map (fun j => (getJobResourceAlloc j).Cpus)).sum % 2 ^ 64 =
      (((jobs.map allocationRecords).flatten).map (fun r => uintOfInt (cpuCount r))).sum
        % 2 ^ 64 := by
  have h : (jobs.map (fun j => (getJobResourceAlloc j).Cpus)) =
      (jobs.map (fun j => ((allocationRecords j).map (fun r => uintOfInt (cpuCount r))).sum)).map
        (fun x => x % 2 ^ 64) := by
    rw [List.map_map]
    apply List.map_congr_left
    intro j _
    rw [getJobResourceAlloc_eq]
    rfl
  rw [h, sum_map_mod, List.map_flatten, List.sum_flatten, List.map_map, List.map_map]
  rfl

theorem sum_getJobResourceAlloc_Memory (jobs : List V0043JobInfo) :
    (jobs.map (fun j => (getJobResourceAlloc j).Memory)).sum % 2 ^ 64 =
      (((jobs.map allocationRecords).flatten).map (fun r => uintOfInt (memoryAllocated r))).sum
        % 2 ^ 64 := by
  have h : (jobs.map (fun j => (getJobResourceAlloc j).Memory)) =
      (jobs.map
        (fun j => ((allocationRecords j).map (fun r => uintOfInt (memoryAllocated r))).sum)).map
        (fun x => x % 2 ^ 64) := by
    rw [List.map_map]
    apply List.map_congr_left
    intro j _
    rw [getJobResourceAlloc_eq]
    rfl
  rw [h, sum_map_mod, List.map_flatten, List.sum_flatten, List.map_map, List.map_map]
  rfl

theorem calculateJobMetrics_JobTres (jobList : V0043JobInfoList) :
    (calculateJobMetrics jobList).JobTres =
      { total := jobList.Items.length % 2 ^ 64
        CpusAlloc := (jobList.Items.map (fun j => (getJobResourceAlloc j).Cpus)).sum % 2 ^ 64
        MemoryAlloc :=
          (jobList.Items.map (fun j => (getJobResourceAlloc j).Memory)).sum % 2 ^ 64 } := by
  have hp : (0 : Nat) < 2 ^ 64 := by norm_num
  rw [calculateJobMetrics_eq]
  show jobList.Items.foldl calculateJobTres {} = _
  rw [foldl_calculateJobTres _ _ hp hp hp]
  show JobTres.mk ((0 + _) % _) ((0 + _) % _) ((0 + _) % _) = _
  simp only [Nat.zero_add]

/-! ## The state classifier -/

/-- Claim C1: for every job and every starting `JobStates`, `calculateJobState` applies `++`
(one more, in 64-bit unsigned arithmetic) to the base bucket that comes first in the order
BootFail, Cancelled, Completed, Deadline, Failed, Pending, Preempted, Running, Suspended,
Timeout, NodeFail, OutOfMemory among those whose token is in the job's state set, and leaves
every other base bucket as it was. The job of the test "all states, all flags" carries all
twelve base tokens and only its BootFail bucket moves. -/
theorem calculateJobState_base_first_match (metrics : JobStates) (job : V0043JobInfo) :
    (∀ b : BaseBucket,
      (calculateJobState metrics job).base b =
        if firstBaseBucket job.GetStateAsSet = some b then (metrics.base b + 1) % 2 ^ 64
        else metrics.base b) ∧
    (∀ b : BaseBucket, allStatesAllFlagsJob.GetStateAsSet.Has b.token = true) ∧
    (∀ b : BaseBucket,
      (calculateJobState metrics allStatesAllFlagsJob).base b =
        if b = .BootFail then (metrics.base b + 1) % 2 ^ 64 else metrics.base b) := by
  refine ⟨fun b => ?_, fun b => by cases b <;> rfl, fun b => ?_⟩
  · rw [calculateJobState_base]
    unfold wins bump uintInc
    by_cases h : firstBaseBucket job.GetStateAsSet = some b <;> simp [h]
  · rw [calculateJobState_base]
    cases b <;> rfl

/-- Claim C2: for every job and every starting `JobStates`, each of the flag buckets
Completing, Configuring, PowerUpNode and StageOut is one more (in 64-bit unsigned
arithmetic) when its token is in the job's state set and is unchanged otherwise; the
condition of a flag mentions no other token. -/
theorem calculateJobState_flags (metrics : JobStates) (job : V0043JobInfo) :
    (calculateJobState metrics job).Completing =
      (if job.GetStateAsSet.Has .COMPLETING then (metrics.Completing + 1) % 2 ^ 64
       else metrics.Completing) ∧
    (calculateJobState metrics job).Configuring =
      (if job.GetStateAsSet.Has .CONFIGURING then (metrics.Configuring + 1) % 2 ^ 64
       else metrics.Configuring) ∧
    (calculateJobState metrics job).PowerUpNode =
      (if job.GetStateAsSet.Has .POWERUPNODE then (metrics.PowerUpNode + 1) % 2 ^ 64
       else metrics.PowerUpNode) ∧
    (calculateJobState metrics job).StageOut =
      (if job.GetStateAsSet.Has .STAGEOUT then (metrics.StageOut + 1) % 2 ^ 64
       else metrics.StageOut) := by
  rw [calculateJobState_eq]
  exact ⟨rfl, rfl, rfl, rfl⟩

/-- Claim C3: the Hold bucket is one more (in 64-bit unsigned arithmetic) when the job's
`Hold` is present and true, and is unchanged when `Hold` is absent or false; it changes if
and only if `Hold` is present and true; and replacing the job's state tokens by any others
gives the same Hold bucket. -/
theorem calculateJobState_hold (metrics : JobStates) (job : V0043JobInfo) :
    ((calculateJobState metrics job).Hold =
      if job.Hold = some true then (metrics.Hold + 1) % 2 ^ 64 else metrics.Hold) ∧
    ((calculateJobState metrics job).Hold ≠ metrics.Hold ↔ job.Hold = some true) ∧
    (∀ states : Option (List V0043JobInfoJobState),
      (calculateJobState metrics { job with JobState := states }).Hold =
        (calculateJobState metrics job).Hold) := by
  have key : ∀ j : V0043JobInfo, (calculateJobState metrics j).Hold =
      if j.Hold = some true then (metrics.Hold + 1) % 2 ^ 64 else metrics.Hold := by
    intro j
    rw [calculateJobState_eq]
    show bump (j.Hold.getD false) metrics.Hold = _
    rcases j.Hold with _ | _ | _ <;> rfl
  refine ⟨key job, ?_, fun states => ?_⟩
  · rw [key job]
    have := uintInc_ne metrics.Hold
    unfold uintInc at this
    by_cases h : job.Hold = some true
    · simp only [h, if_true, iff_true]
      exact this
    · simp only [h, if_false, iff_false]
      exact fun hne => hne rfl
  · rw [key, key]

/-- Claim C4: for a job whose state set holds none of the twelve base tokens,
`calculateJobState` leaves all twelve base buckets unchanged and still makes `total` one
more (in 64-bit unsigned arithmetic). -/
theorem calculateJobState_no_base_token (metrics : JobStates) (job : V0043JobInfo)
    (h : ∀ b : BaseBucket, job.GetStateAsSet.Has b.token = false) :
    (∀ b : BaseBucket, (calculateJobState metrics job).base b = metrics.base b) ∧
    (calculateJobState metrics job).total = (metrics.total + 1) % 2 ^ 64 := by
  have hnone : firstBaseBucket job.GetStateAsSet = none := by
    unfold firstBaseBucket
    rw [List.find?_eq_none]
    intro b _
    simp [h b]
  refine ⟨fun b => ?_, ?_⟩
  · rw [calculateJobState_base]
    simp [wins, hnone, bump]
  · rw [calculateJobState_eq]
    rfl

/-- The job with tokens COMPLETING and REQUEUED has no base token: from counters with
`Running = 3` its base buckets stay and `total` becomes 1. -/
theorem calculateJobState_no_base_token_witness :
    (∀ b : BaseBucket, flagOnlyJob.GetStateAsSet.Has b.token = false) ∧
    (∀ b : BaseBucket,
      (calculateJobState { Running := 3 } flagOnlyJob).base b
        = JobStates.base { Running := 3 } b) ∧
    (calculateJobState { Running := 3 } flagOnlyJob).total = 1 :=
  ⟨fun b => by cases b <;> rfl,
   calculateJobState_no_base_token { Running := 3 } flagOnlyJob (fun b => by cases b <;> rfl)⟩

/-! ## The resource tally and the assembler -/

/-- Claim C5: for a job whose allocation records have non-negative cpu counts and memory
amounts with sums below `2 ^ 64`, `getJobResourceAlloc` returns as `Cpus` the sum of
`Cpus.Count` and as `Memory` the sum of `Memory.Allocated` over the records of
`JobResources.Nodes.Allocation`, an absent field counting zero; `job0` (one record
`{8, 1024}`) gives `{8, 1024}` and `job2` (records `{8, 1024}` and `{4, 2048}`) gives
`{12, 3072}`. -/
theorem getJobResourceAlloc_sums (job : V0043JobInfo)
    (hcpus : ∀ r ∈ allocationRecords job, 0 ≤ cpuCount r)
    (hmemory : ∀ r ∈ allocationRecords job, 0 ≤ memoryAllocated r)
    (hcpusFit : ((allocationRecords job).map cpuCount).sum < 2 ^ 64)
    (hmemoryFit : ((allocationRecords job).map memoryAllocated).sum < 2 ^ 64) :
    (((getJobResourceAlloc job).Cpus : Nat) : Int) = ((allocationRecords job).map cpuCount).sum ∧
    (((getJobResourceAlloc job).Memory : Nat) : Int)
      = ((allocationRecords job).map memoryAllocated).sum ∧
    getJobResourceAlloc job0 = { Cpus := 8, Memory := 1024 } ∧
    getJobResourceAlloc job2 = { Cpus := 12, Memory := 3072 } := by
  have hc := sum_uintOfInt cpuCount (allocationRecords job) hcpus hcpusFit
  have hm := sum_uintOfInt memoryAllocated (allocationRecords job) hmemory hmemoryFit
  refine ⟨?_, ?_, by decide, by decide⟩
  · rw [getJobResourceAlloc_eq]
    show ((_ % 2 ^ 64 : Nat) : Int) = _
    rw [Nat.mod_eq_of_lt (by omega)]
    exact hc
  · rw [getJobResourceAlloc_eq]
    show ((_ % 2 ^ 64 : Nat) : Int) = _
    rw [Nat.mod_eq_of_lt (by omega)]
    exact hm

/-- The records of `job2` are non-negative, their sums are 12 and 3072, and so are the
`Cpus` and `Memory` that `getJobResourceAlloc` returns for it. -/
theorem getJobResourceAlloc_sums_witness :
    (∀ r ∈ allocationRecords job2, 0 ≤ cpuCount r) ∧
    (∀ r ∈ allocationRecords job2, 0 ≤ memoryAllocated r) ∧
    allocationRecords job2 =
      [{ Cpus := some { Count := some 8 }, Memory := some { Allocated := some 1024 } },
       { Cpus := some { Count := some 4 }, Memory := some { Allocated := some 2048 } }] ∧
    ((allocationRecords job2).map cpuCount).sum = 12 ∧
    ((allocationRecords job2).map memoryAllocated).sum = 3072 ∧
    (((getJobResourceAlloc job2).Cpus : Nat) : Int) = 12 ∧
    (((getJobResourceAlloc job2).Memory : Nat) : Int) = 3072 :=
  ⟨by decide, by decide, rfl, by decide, by decide,
   (getJobResourceAlloc_sums job2 (by decide) (by decide) (by decide) (by decide)).1,
   (getJobResourceAlloc_sums job2 (by decide) (by decide) (by decide) (by decide)).2.1⟩

/-- Claim C6: for every job list, the `CpusAlloc` and `MemoryAlloc` that
`calculateJobMetrics` returns are the sums over the jobs of the `Cpus` and `Memory` of
`getJobResourceAlloc`, the sums being those of Go's 64-bit `uint` (the plain sum reduced
modulo `2 ^ 64`, which is the plain sum whenever that is below `2 ^ 64`); and they are the
`Cpus` and `Memory` that `getJobResourceAlloc` returns for a single job, of any state and
`Hold`, whose allocation list is the concatenation of the allocation records of all the
jobs. -/
theorem calculateJobMetrics_tally_additive (jobList : V0043JobInfoList)
    (state : Option (List V0043JobInfoJobState)) (hold : Option Bool) :
    (calculateJobMetrics jobList).JobTres.CpusAlloc =
        (jobList.Items.map (fun job => (getJobResourceAlloc job).Cpus)).sum % 2 ^ 64 ∧
    (calculateJobMetrics jobList).JobTres.MemoryAlloc =
        (jobList.Items.map (fun job => (getJobResourceAlloc job).Memory)).sum % 2 ^ 64 ∧
    (calculateJobMetrics jobList).JobTres.CpusAlloc =
        (getJobResourceAlloc (concatenatedJob state hold jobList.Items)).Cpus ∧
    (calculateJobMetrics jobList).JobTres.MemoryAlloc =
        (getJobResourceAlloc (concatenatedJob state hold jobList.Items)).Memory ∧
    allocationRecords (concatenatedJob state hold jobList.Items) =
        (jobList.Items.map allocationRecords).flatten := by
  rw [calculateJobMetrics_JobTres, getJobResourceAlloc_eq, allocationRecords_concatenatedJob]
  exact ⟨rfl, rfl, sum_getJobResourceAlloc_Cpus _, sum_getJobResourceAlloc_Memory _, rfl⟩

/-- Claim C7: for a job that has no `JobResources`, or whose `JobResources` has no `Nodes`,
or whose `Nodes` has no `Allocation` list or an empty one, `getJobResourceAlloc` returns
`{Cpus: 0, Memory: 0}`, and `calculateJobTres` leaves `CpusAlloc` and `MemoryAlloc` (any
64-bit values) unchanged. -/
theorem getJobResourceAlloc_zero_safe (metrics : JobTres) (job : V0043JobInfo)
    (hjob : job.JobResources = none ∨
      (∃ jobRes, job.JobResources = some jobRes ∧ jobRes.Nodes = none) ∨
      (∃ jobRes nodes, job.JobResources = some jobRes ∧ jobRes.Nodes = some nodes ∧
        (nodes.Allocation = none ∨ nodes.Allocation = some [])))
    (hcpus : metrics.CpusAlloc < 2 ^ 64) (hmemory : metrics.MemoryAlloc < 2 ^ 64) :
    getJobResourceAlloc job = { Cpus := 0, Memory := 0 } ∧
    (calculateJobTres metrics job).CpusAlloc = metrics.CpusAlloc ∧
    (calculateJobTres metrics job).MemoryAlloc = metrics.MemoryAlloc := by
  have hzero : getJobResourceAlloc job = { Cpus := 0, Memory := 0 } := by
    rcases hjob with h | ⟨jobRes, h1, h2⟩ | ⟨jobRes, nodes, h1, h2, h3 | h3⟩
    · simp [getJobResourceAlloc, h]
    · simp [getJobResourceAlloc, h1, h2]
    · simp [getJobResourceAlloc, h1, h2, h3]
    · simp [getJobResourceAlloc, h1, h2, h3]
  refine ⟨hzero, ?_, ?_⟩
  · show uintAdd metrics.CpusAlloc (getJobResourceAlloc job).Cpus = _
    rw [hzero]
    exact Nat.mod_eq_of_lt hcpus
  · show uintAdd metrics.MemoryAlloc (getJobResourceAlloc job).Memory = _
    rw [hzero]
    exact Nat.mod_eq_of_lt hmemory

/-- The fixture `job1` has no `JobResources`: its tally is zero and accumulators 8 and 1024
stay 8 and 1024. -/
theorem getJobResourceAlloc_zero_safe_witness :
    job1.JobResources = none ∧
    getJobResourceAlloc job1 = { Cpus := 0, Memory := 0 } ∧
    (calculateJobTres { total := 1, CpusAlloc := 8, MemoryAlloc := 1024 } job1).CpusAlloc = 8 ∧
    (calculateJobTres { total := 1, CpusAlloc := 8, MemoryAlloc := 1024 } job1).MemoryAlloc
      = 1024 :=
  ⟨rfl, getJobResourceAlloc_zero_safe { total := 1, CpusAlloc := 8, MemoryAlloc := 1024 } job1
    (Or.inl rfl) (by decide) (by decide)⟩

/-- Claim C8: for every job list (a Go slice, so of length below `2 ^ 64`),
`calculateJobMetrics` returns `JobCount`, `JobStates.total` and `JobTres.total` all equal to
the number of jobs in the list, whatever the jobs are. -/
theorem calculateJobMetrics_counts (jobList : V0043JobInfoList)
    (hlen : jobList.Items.length < 2 ^ 64) :
    (calculateJobMetrics jobList).JobCount = jobList.Items.length ∧
    (calculateJobMetrics jobList).JobStates.total = jobList.Items.length ∧
    (calculateJobMetrics jobList).JobTres.total = jobList.Items.length := by
  refine ⟨?_, ?_, ?_⟩
  · rw [calculateJobMetrics_eq]
    show uintOfInt (jobList.Items.length : Int) = _
    unfold uintOfInt
    omega
  · rw [calculateJobMetrics_eq]
    show (jobList.Items.foldl calculateJobState {}).total = _
    rw [foldl_calculateJobState_total _ _ (by show 0 < 2 ^ 64; norm_num)]
    show (0 + _) % _ = _
    omega
  · rw [calculateJobMetrics_JobTres]
    exact Nat.mod_eq_of_lt hlen

/-- A list of a job with no state and no resources and of `job0` counts 2 three times. -/
theorem calculateJobMetrics_counts_witness :
    (V0043JobInfoList.mk [{}, job0]).Items.length < 2 ^ 64 ∧
    (calculateJobMetrics { Items := [{}, job0] }).JobCount = 2 ∧
    (calculateJobMetrics { Items := [{}, job0] }).JobStates.total = 2 ∧
    (calculateJobMetrics { Items := [{}, job0] }).JobTres.total = 2 :=
  ⟨by decide, calculateJobMetrics_counts { Items := [{}, job0] } (by decide)⟩

/-- Claim C9: for the four jobs of the fixture `jobList`, `calculateJobMetrics`, and
`getJobMetrics` over a client returning that list, yield `JobCount = 4`, `Pending = 2`,
`Running = 2`, `Hold = 1`, every other state bucket 0, `CpusAlloc = 20` and
`MemoryAlloc = 4096` (both `total` counters are 4). -/
theorem calculateJobMetrics_jobList :
    calculateJobMetrics jobList =
      { JobCount := 4
        JobStates := { total := 4, Pending := 2, Running := 2, Hold := 1 }
        JobTres := { total := 4, CpusAlloc := 20, MemoryAlloc := 4096 } } ∧
    getJobMetrics (clientReturning jobList) =
      (some
        { JobCount := 4
          JobStates := { total := 4, Pending := 2, Running := 2, Hold := 1 }
          JobTres := { total := 4, CpusAlloc := 20, MemoryAlloc := 4096 } },
       none) := by
  constructor <;> decide

/-- Claim C10: the error that `getJobMetrics` returns is the error of the client's `List`
call, so it returns an error if and only if `List` fails; the snapshot is nil when `List`
fails and is `calculateJobMetrics` of the listed jobs when `List` succeeds. For
`testFailClient` the result is a nil snapshot with the client's error. -/
theorem getJobMetrics_error_iff (slurmClient : Client) :
    (getJobMetrics slurmClient).2 = (slurmClient.List {}).2 ∧
    ((getJobMetrics slurmClient).2 ≠ none ↔ (slurmClient.List {}).2 ≠ none) ∧
    (getJobMetrics slurmClient).1 =
      (if (slurmClient.List {}).2 = none then
        some (calculateJobMetrics (slurmClient.List {}).1)
       else none) ∧
    getJobMetrics testFailClient = (none, some { text := "Internal Server Error" }) := by
  have h : (getJobMetrics slurmClient).2 = (slurmClient.List {}).2 ∧
      (getJobMetrics slurmClient).1 =
        (if (slurmClient.List {}).2 = none then
          some (calculateJobMetrics (slurmClient.List {}).1)
        else none) := by
    simp only [getJobMetrics]
    rcases slurmClient.List {} with ⟨l, _ | e⟩
    · exact ⟨rfl, rfl⟩
    · exact ⟨rfl, rfl⟩
  exact ⟨h.1, by rw [h.1], h.2, rfl⟩

/-! ## Counting over a job list -/

theorem tally_cons (p : V0043JobInfo → Bool) (x : Nat) (j : V0043JobInfo)
    (jobs : List V0043JobInfo) : tally p x (j :: jobs) = tally p (bump (p j) x) jobs := rfl

theorem bump_lt (c : Bool) (x : Nat) (h : x < 2 ^ 64) : bump c x < 2 ^ 64 := by
  cases c
  · exact h
  · exact Nat.mod_lt _ (by norm_num)

theorem tally_eq (p : V0043JobInfo → Bool) (jobs : List V0043JobInfo) :
    ∀ x, x < 2 ^ 64 → tally p x jobs = (x + jobs.countP p) % 2 ^ 64 := by
  induction jobs with
  | nil =>
    intro x hx
    simp only [tally, List.foldl_nil, List.countP_nil, Nat.add_zero]
    exact (Nat.mod_eq_of_lt hx).symm
  | cons j js ih =>
    intro x hx
    rw [tally_cons, ih _ (bump_lt _ _ hx), List.countP_cons]
    cases p j
    · simp [bump]
    · simp only [bump, uintInc, if_true]; omega

theorem tally_zero (p : V0043JobInfo → Bool) (jobs : List V0043JobInfo) :
    tally p 0 jobs = jobs.countP p % 2 ^ 64 := by
  rw [tally_eq _ _ _ (by norm_num), Nat.zero_add]

theorem foldl_calculateJobState (jobs : List V0043JobInfo) :
    ∀ m : JobStates, jobs.foldl calculateJobState m =
      { total := tally (fun _ => true) m.total jobs
        BootFail := tally (fun job => wins job.GetStateAsSet .BootFail) m.BootFail jobs
        Cancelled := tally (fun job => wins job.GetStateAsSet .Cancelled) m.Cancelled jobs
        Completed := tally (fun job => wins job.GetStateAsSet .Completed) m.Completed jobs
        Deadline := tally (fun job => wins job.GetStateAsSet .Deadline) m.Deadline jobs
        Failed := tally (fun job => wins job.GetStateAsSet .Failed) m.Failed jobs
        Pending := tally (fun job => wins job.GetStateAsSet .Pending) m.Pending jobs
        Preempted := tally (fun job => wins job.GetStateAsSet .Preempted) m.Preempted jobs
        Running := tally (fun job => wins job.GetStateAsSet .Running) m.Running jobs
        Suspended := tally (fun job => wins job.GetStateAsSet .Suspended) m.Suspended jobs
        Timeout := tally (fun job => wins job.GetStateAsSet .Timeout) m.Timeout jobs
        NodeFail := tally (fun job => wins job.GetStateAsSet .NodeFail) m.NodeFail jobs
        OutOfMemory := tally (fun job => wins job.GetStateAsSet .OutOfMemory) m.OutOfMemory jobs
        Completing := tally (fun job => job.GetStateAsSet.Has .COMPLETING) m.Completing jobs
        Configuring := tally (fun job => job.GetStateAsSet.Has .CONFIGURING) m.Configuring jobs
        PowerUpNode := tally (fun job => job.GetStateAsSet.Has .POWERUPNODE) m.PowerUpNode jobs
        StageOut := tally (fun job => job.GetStateAsSet.Has .STAGEOUT) m.StageOut jobs
        Hold := tally (fun job => job.Hold.getD false) m.Hold jobs } := by
  induction jobs with
  | nil => intro m; rfl
  | cons j js ih =>
    intro m
    rw [List.foldl_cons, ih, calculateJobState_eq]
    rfl

theorem foldl_calculateJobState_zero (jobs : List V0043JobInfo) :
    jobs.foldl calculateJobState {} =
      { total := jobs.length % 2 ^ 64
        BootFail := jobs.countP (fun job => wins job.GetStateAsSet .BootFail) % 2 ^ 64
        Cancelled := jobs.countP (fun job => wins job.GetStateAsSet .Cancelled) % 2 ^ 64
        Completed := jobs.countP (fun job => wins job.GetStateAsSet .Completed) % 2 ^ 64
        Deadline := jobs.countP (fun job => wins job.GetStateAsSet .Deadline) % 2 ^ 64
        Failed := jobs.countP (fun job => wins job.GetStateAsSet .Failed) % 2 ^ 64
        Pending := jobs.countP (fun job => wins job.GetStateAsSet .Pending) % 2 ^ 64
        Preempted := jobs.countP (fun job => wins job.GetStateAsSet .Preempted) % 2 ^ 64
        Running := jobs.countP (fun job => wins job.GetStateAsSet .Running) % 2 ^ 64
        Suspended := jobs.countP (fun job => wins job.GetStateAsSet .Suspended) % 2 ^ 64
        Timeout := jobs.countP (fun job => wins job.GetStateAsSet .Timeout) % 2 ^ 64
        NodeFail := jobs.countP (fun job => wins job.GetStateAsSet .NodeFail) % 2 ^ 64
        OutOfMemory := jobs.countP (fun job => wins job.GetStateAsSet .OutOfMemory) % 2 ^ 64
        Completing := jobs.countP (fun job => job.GetStateAsSet.Has .COMPLETING) % 2 ^ 64
        Configuring := jobs.countP (fun job => job.GetStateAsSet.Has .CONFIGURING) % 2 ^ 64
        PowerUpNode := jobs.countP (fun job => job.GetStateAsSet.Has .POWERUPNODE) % 2 ^ 64
        StageOut := jobs.countP (fun job => job.GetStateAsSet.Has .STAGEOUT) % 2 ^ 64
        Hold := jobs.countP (fun job => job.Hold.getD false) % 2 ^ 64 } := by
  rw [foldl_calculateJobState]
  simp only [tally_zero, List.countP_true]

theorem foldl_calculateJobState_base (jobs : List V0043JobInfo) (b : BaseBucket) :
    (jobs.foldl calculateJobState {}).base b =
      jobs.countP (fun job => wins job.GetStateAsSet b) % 2 ^ 64 := by
  have hp : (0 : Nat) < 2 ^ 64 := by norm_num
  rw [foldl_calculateJobState]
  cases b <;>
  · show tally _ 0 jobs = _
    rw [tally_eq _ _ _ hp, Nat.zero_add]

theorem hasBaseToken_eq (job : V0043JobInfo) :
    hasBaseToken job = (firstBaseBucket job.GetStateAsSet).isSome := by
  unfold hasBaseToken firstBaseBucket
  rw [Bool.eq_iff_iff, List.any_eq_true, List.find?_isSome]

theorem wins_indicator (job : V0043JobInfo) :
    (jobBaseOrder.map (fun b => if wins job.GetStateAsSet b then 1 else 0)).sum =
      if hasBaseToken job then 1 else 0 := by
  rw [hasBaseToken_eq]
  unfold wins
  rcases h : firstBaseBucket job.GetStateAsSet with _ | b
  · simp [jobBaseOrder]
  · cases b <;> simp [jobBaseOrder]

theorem countP_wins_sum (jobs : List V0043JobInfo) :
    (jobBaseOrder.map (fun b => jobs.countP (fun job => wins job.GetStateAsSet b))).sum =
      jobs.countP hasBaseToken := by
  induction jobs with
  | nil => simp [jobBaseOrder]
  | cons j js ih =>
    have h := wins_indicator j
    simp only [jobBaseOrder, List.map_cons, List.map_nil, List.sum_cons, List.sum_nil,
      List.countP_cons] at h ih ⊢
    omega

theorem decide_bump_ne (c : Bool) (x : Nat) : decide (bump c x ≠ x) = c := by
  cases c
  · simp [bump]
  · simpa [bump] using uintInc_ne x

theorem countP_eq_sum_indicator {α : Type} (p : α → Bool) (l : List α) :
    l.countP p = (l.map (fun x => if p x then 1 else 0)).sum := by
  induction l with
  | nil => rfl
  | cons a l ih =>
    rw [List.countP_cons, List.map_cons, List.sum_cons, ih]
    omega

theorem bump_le (c : Bool) (x t : Nat) (hx : x ≤ t) : bump c x ≤ t + 1 := by
  cases c
  · exact Nat.le_succ_of_le hx
  · show (x + 1) % 2 ^ 64 ≤ t + 1
    exact le_trans (Nat.mod_le _ _) (Nat.succ_le_succ hx)

theorem countP_mod_le (p : V0043JobInfo → Bool) (jobs : List V0043JobInfo)
    (h : jobs.length < 2 ^ 64) : jobs.countP p % 2 ^ 64 ≤ jobs.length % 2 ^ 64 := by
  rw [Nat.mod_eq_of_lt h]
  exact le_trans (Nat.mod_le _ _) (List.countP_le_length _)

theorem calculateJobState_congr (m : JobStates) (j1 j2 : V0043JobInfo)
    (hs : ∀ t ∈ recognizedTokens, j1.GetStateAsSet.Has t = j2.GetStateAsSet.Has t)
    (hh : j1.Hold.getD false = j2.Hold.getD false) :
    calculateJobState m j1 = calculateJobState m j2 := by
  have h1 := hs .BOOTFAIL (by decide)
  have h2 := hs .CANCELLED (by decide)
  have h3 := hs .COMPLETED (by decide)
  have h4 := hs .DEADLINE (by decide)
  have h5 := hs .FAILED (by decide)
  have h6 := hs .PENDING (by decide)
  have h7 := hs .PREEMPTED (by decide)
  have h8 := hs .RUNNING (by decide)
  have h9 := hs .SUSPENDED (by decide)
  have h10 := hs .TIMEOUT (by decide)
  have h11 := hs .NODEFAIL (by decide)
  have h12 := hs .OUTOFMEMORY (by decide)
  have h13 := hs .COMPLETING (by decide)
  have h14 := hs .CONFIGURING (by decide)
  have h15 := hs .POWERUPNODE (by decide)
  have h16 := hs .STAGEOUT (by decide)
  simp only [calculateJobState_eq, wins, firstBaseBucket_eq, h1, h2, h3, h4, h5, h6, h7, h8,
    h9, h10, h11, h12, h13, h14, h15, h16, hh]

theorem Has_append_of_not_mem (s extra : StateSet) (t : V0043JobInfoJobState)
    (h : t ∉ extra) : StateSet.Has (s ++ extra) t = s.Has t ∧
      StateSet.Has (extra ++ s) t = s.Has t := by
  unfold StateSet.Has
  constructor
  · rw [decide_eq_decide, List.mem_append]
    exact ⟨fun h1 => h1.resolve_right h, Or.inl⟩
  · rw [decide_eq_decide, List.mem_append]
    exact ⟨fun h1 => h1.resolve_left h, Or.inr⟩

theorem sum_map_le_length_mul {α : Type} (f : α → Int) (l : List α) (n : Int)
    (h : ∀ x ∈ l, f x ≤ n) : (l.map f).sum ≤ l.length * n := by
  induction l with
  | nil => simp
  | cons a l ih =>
    have ha := h a (List.mem_cons_self _ _)
    have hl := ih (fun x hx => h x (List.mem_cons_of_mem _ hx))
    simp only [List.map_cons, List.sum_cons, List.length_cons, Nat.cast_add, Nat.cast_one]
    linarith

theorem calculateJobMetrics_CpusAlloc_exact (jobList : V0043JobInfoList)
    (h0 : ∀ r ∈ allAllocationRecords jobList, 0 ≤ cpuCount r)
    (h1 : ((allAllocationRecords jobList).map cpuCount).sum < 2 ^ 64) :
    (((calculateJobMetrics jobList).JobTres.CpusAlloc : Nat) : Int) =
      ((allAllocationRecords jobList).map cpuCount).sum := by
  have hs := sum_uintOfInt cpuCount (allAllocationRecords jobList) h0 h1
  rw [calculateJobMetrics_JobTres]
  show ((_ % 2 ^ 64 : Nat) : Int) = _
  rw [sum_getJobResourceAlloc_Cpus]
  unfold allAllocationRecords at hs h1 ⊢
  rw [Nat.mod_eq_of_lt (by omega)]
  exact hs

theorem calculateJobMetrics_MemoryAlloc_exact (jobList : V0043JobInfoList)
    (h0 : ∀ r ∈ allAllocationRecords jobList, 0 ≤ memoryAllocated r)
    (h1 : ((allAllocationRecords jobList).map memoryAllocated).sum < 2 ^ 64) :
    (((calculateJobMetrics jobList).JobTres.MemoryAlloc : Nat) : Int) =
      ((allAllocationRecords jobList).map memoryAllocated).sum := by
  have hs := sum_uintOfInt memoryAllocated (allAllocationRecords jobList) h0 h1
  rw [calculateJobMetrics_JobTres]
  show ((_ % 2 ^ 64 : Nat) : Int) = _
  rw [sum_getJobResourceAlloc_Memory]
  unfold allAllocationRecords at hs h1 ⊢
  rw [Nat.mod_eq_of_lt (by omega)]
  exact hs

theorem getJobMetrics_of_success (c : Client) (h : (c.List {}).2 = none) :
    getJobMetrics c = (some (calculateJobMetrics (c.List {}).1), none) := by
  simp only [getJobMetrics]
  rcases hl : c.List {} with ⟨l, e⟩
  rw [hl] at h
  simp only at h
  subst h
  rfl

theorem getJobMetrics_of_failure (c : Client) (h : (c.List {}).2 ≠ none) :
    ∃ err, getJobMetrics c = (none, some err) := by
  simp only [getJobMetrics]
  rcases hl : c.List {} with ⟨l, _ | e⟩
  · rw [hl] at h
    exact absurd rfl h
  · exact ⟨e, rfl⟩

/-! ## The exposition of a snapshot -/

/-- Claim C11: whenever the client's `List` call fails, `Collect` returns normally and the
channel holds exactly the points it held before: nothing is sent. -/
theorem Collect_sends_nothing_on_failure {F : Type} (float64 : Nat → F) (c : jobCollector)
    (ch : List (Metric F)) (h : (c.slurmClient.List {}).2 ≠ none) :
    c.Collect float64 ch = some ch := by
  obtain ⟨err, he⟩ := getJobMetrics_of_failure c.slurmClient h
  unfold jobCollector.Collect
  rw [he]

/-- The collector built on `testFailClient` sends nothing on an empty channel. -/
theorem Collect_sends_nothing_on_failure_witness :
    (testFailClient.List {}).2 ≠ none ∧
    (NewJobCollector testFailClient).Collect (fun x => (x : ℚ)) [] = some [] :=
  ⟨by decide, Collect_sends_nothing_on_failure _ (NewJobCollector testFailClient) []
    (by decide)⟩

/-! ## Completeness of the classification -/

/-- Claim C12, as stated, fails: a job with no state lands in no base bucket, and for the list
of that one job the sum of the twelve base buckets is 0 while the list has one job. -/
theorem classification_not_complete :
    baseSum (calculateJobState {} {}) = 0 ∧
    (calculateJobMetrics { Items := [{}] }).JobCount = 1 ∧
    ¬ (baseSum (calculateJobMetrics { Items := [{}] }).JobStates =
        (V0043JobInfoList.mk [{}]).Items.length) := by
  decide

/-- Claim C12, amended: a job changes exactly one base bucket when its state set holds at
least one of the twelve base tokens and none otherwise (never two), and for every job list
(a Go slice, so of length below `2 ^ 64`) the sum of the twelve base buckets returned by
`calculateJobMetrics` is the number of jobs of the list that carry at least one base token. -/
theorem classification_at_most_one (metrics : JobStates) (job : V0043JobInfo)
    (jobList : V0043JobInfoList) (hlen : jobList.Items.length < 2 ^ 64) :
    jobBaseOrder.countP
        (fun b => decide ((calculateJobState metrics job).base b ≠ metrics.base b)) =
      (if hasBaseToken job then 1 else 0) ∧
    baseSum (calculateJobMetrics jobList).JobStates = jobList.Items.countP hasBaseToken := by
  constructor
  · rw [countP_eq_sum_indicator]
    simp only [calculateJobState_base, decide_bump_ne]
    exact wins_indicator job
  · rw [calculateJobMetrics_eq]
    show baseSum (jobList.Items.foldl calculateJobState {}) = _
    unfold baseSum
    rw [← countP_wins_sum]
    congr 1
    apply List.map_congr_left
    intro b _
    rw [foldl_calculateJobState_base]
    apply Nat.mod_eq_of_lt
    exact lt_of_le_of_lt (List.countP_le_length _) hlen

/-- Of the four jobs `job0`, a job with no state, `flagOnlyJob` and `job1`, two carry a base
token, and the twelve base buckets sum to 2; `allStatesAllFlagsJob` changes one bucket. -/
theorem classification_at_most_one_witness :
    (V0043JobInfoList.mk [job0, {}, flagOnlyJob, job1]).Items.length < 2 ^ 64 ∧
    jobBaseOrder.countP
        (fun b => decide ((calculateJobState {} allStatesAllFlagsJob).base b ≠
          JobStates.base {} b)) = 1 ∧
    baseSum (calculateJobMetrics { Items := [job0, {}, flagOnlyJob, job1] }).JobStates = 2 :=
  ⟨by decide,
   classification_at_most_one {} allStatesAllFlagsJob { Items := [job0, {}, flagOnlyJob, job1] }
     (by decide)⟩

/-! ## Tokens that the classifier does not test -/

/-- Claim C13: for every job, adding to its state set any tokens other than the sixteen
recognized ones changes no counter that `calculateJobState` produces (the function is
total, it has no failing case). -/
theorem calculateJobState_ignores_unrecognized (metrics : JobStates) (job : V0043JobInfo)
    (extra : List V0043JobInfoJobState) (h : ∀ t ∈ extra, t ∉ recognizedTokens) :
    calculateJobState metrics { job with JobState := some (job.GetStateAsSet ++ extra) } =
      calculateJobState metrics job ∧
    calculateJobState metrics { job with JobState := some (extra ++ job.GetStateAsSet) } =
      calculateJobState metrics job := by
  constructor
  · apply calculateJobState_congr
    · intro t ht
      exact (Has_append_of_not_mem job.GetStateAsSet extra t (fun hx => h t hx ht)).1
    · rfl
  · apply calculateJobState_congr
    · intro t ht
      exact (Has_append_of_not_mem job.GetStateAsSet extra t (fun hx => h t hx ht)).2
    · rfl

/-- Adding LAUNCHFAILED, REQUEUED, RESIZING and SIGNALING to `job1` changes no counter. -/
theorem calculateJobState_ignores_unrecognized_witness :
    (∀ t ∈ [V0043JobInfoJobState.LAUNCHFAILED, .REQUEUED, .RESIZING, .SIGNALING],
      t ∉ recognizedTokens) ∧
    calculateJobState {} { job1 with JobState := some (job1.GetStateAsSet ++
        [.LAUNCHFAILED, .REQUEUED, .RESIZING, .SIGNALING]) } = calculateJobState {} job1 ∧
    calculateJobState {} { job1 with JobState := some (
        [.LAUNCHFAILED, .REQUEUED, .RESIZING, .SIGNALING] ++ job1.GetStateAsSet) } =
      calculateJobState {} job1 :=
  ⟨by decide,
   calculateJobState_ignores_unrecognized {} job1
     [.LAUNCHFAILED, .REQUEUED, .RESIZING, .SIGNALING] (by decide)⟩

/-- Claim C14: from zero counters, a job with tokens RUNNING, COMPLETING, CONFIGURING and
no `Hold` gives `Running = 1`, `Completing = 1`, `Configuring = 1`, `total = 1` and 0 in
every other bucket. -/
theorem calculateJobState_running_completing_configuring :
    calculateJobState {} { JobState := some [.RUNNING, .COMPLETING, .CONFIGURING] } =
      { total := 1, BootFail := 0, Cancelled := 0, Completed := 0, Deadline := 0,
        Failed := 0, Pending := 0, Preempted := 0, Running := 1, Suspended := 0,
        Timeout := 0, NodeFail := 0, OutOfMemory := 0, Completing := 1, Configuring := 1,
        PowerUpNode := 0, StageOut := 0, Hold := 0 } := by
  decide

/-! ## Order, repetition and the empty list -/

/-- Claim C15: for every job list and every permutation of it, `calculateJobMetrics` returns
the same `JobMetrics`. -/
theorem calculateJobMetrics_perm (jobs permuted : List V0043JobInfo)
    (h : jobs.Perm permuted) :
    calculateJobMetrics { Items := jobs } = calculateJobMetrics { Items := permuted } := by
  have hT : (calculateJobMetrics { Items := jobs }).JobTres =
      (calculateJobMetrics { Items := permuted }).JobTres := by
    rw [calculateJobMetrics_JobTres, calculateJobMetrics_JobTres]
    simp only [h.length_eq, (h.map (fun j => (getJobResourceAlloc j).Cpus)).sum_eq,
      (h.map (fun j => (getJobResourceAlloc j).Memory)).sum_eq]
  rw [calculateJobMetrics_eq, calculateJobMetrics_eq] at hT ⊢
  simp only at hT
  rw [hT, foldl_calculateJobState_zero, foldl_calculateJobState_zero]
  simp only [h.length_eq, h.countP_eq]

/-- The fixture list in the order `job3, job1, job0, job2` gives the same snapshot. -/
theorem calculateJobMetrics_perm_witness :
    [job0, job1, job2, job3].Perm [job3, job1, job0, job2] ∧
    calculateJobMetrics { Items := [job0, job1, job2, job3] } =
      calculateJobMetrics { Items := [job3, job1, job0, job2] } :=
  ⟨by decide, calculateJobMetrics_perm _ _ (by decide)⟩

/-- Claim C16: two calls of `getJobMetrics` whose `List` calls both succeed with the same job
list (`first` and `second` are the client at the two calls) return identical results, and
the snapshot is `calculateJobMetrics` of that list and of nothing else. -/
theorem getJobMetrics_idempotent (first second : Client)
    (hfirst : (first.List {}).2 = none) (hsecond : (second.List {}).2 = none)
    (hsame : (first.List {}).1.Items = (second.List {}).1.Items) :
    getJobMetrics first = getJobMetrics second ∧
    getJobMetrics first = (some (calculateJobMetrics (first.List {}).1), none) := by
  have hlist : (first.List {}).1 = (second.List {}).1 := by
    rcases h1 : (first.List {}).1 with ⟨i1⟩
    rcases h2 : (second.List {}).1 with ⟨i2⟩
    rw [h1, h2] at hsame
    simp only at hsame
    rw [hsame]
  exact ⟨by rw [getJobMetrics_of_success first hfirst, getJobMetrics_of_success second hsecond,
    hlist], getJobMetrics_of_success first hfirst⟩

/-- A call on `testDataClient` and a call on a client that writes the same four jobs into
the list object it receives return the same result. -/
theorem getJobMetrics_idempotent_witness :
    (testDataClient.List {}).2 = none ∧
    ((Client.mk (fun l => ({ l with Items := [job0, job1, job2, job3] }, none))).List {}).2
      = none ∧
    getJobMetrics testDataClient =
      getJobMetrics (Client.mk (fun l => ({ l with Items := [job0, job1, job2, job3] }, none))) ∧
    getJobMetrics testDataClient =
      (some (calculateJobMetrics (testDataClient.List {}).1), none) :=
  ⟨rfl, rfl,
   getJobMetrics_idempotent testDataClient
     (Client.mk (fun l => ({ l with Items := [job0, job1, job2, job3] }, none))) rfl rfl rfl⟩

/-- Claim C17: from zero counters, after `calculateJobState` has run over any sequence of
fewer than `2 ^ 64` jobs, `total` is the number of jobs and each of the seventeen buckets
is at most `total`; and one step from counters whose buckets are at most `total`, with
`total` not at its last value, makes `total` one more and leaves each bucket at most
`total`. -/
theorem calculateJobState_counter_invariant (jobs : List V0043JobInfo)
    (metrics : JobStates) (job : V0043JobInfo)
    (hjobs : jobs.length < 2 ^ 64)
    (htotal : metrics.total + 1 < 2 ^ 64)
    (hbuckets : ∀ x ∈ metrics.buckets, x ≤ metrics.total) :
    ((jobs.foldl calculateJobState {}).total = jobs.length ∧
      ∀ x ∈ (jobs.foldl calculateJobState {}).buckets,
        x ≤ (jobs.foldl calculateJobState {}).total) ∧
    ((calculateJobState metrics job).total = metrics.total + 1 ∧
      ∀ x ∈ (calculateJobState metrics job).buckets,
        x ≤ (calculateJobState metrics job).total) := by
  constructor
  · rw [foldl_calculateJobState_zero]
    refine ⟨Nat.mod_eq_of_lt hjobs, ?_⟩
    simp only [JobStates.buckets, List.forall_mem_cons, List.not_mem_nil, false_imp_iff,
      implies_true, and_true]
    repeat' constructor
    all_goals exact countP_mod_le _ _ hjobs
  · rw [calculateJobState_eq]
    have ht : uintInc metrics.total = metrics.total + 1 := Nat.mod_eq_of_lt htotal
    refine ⟨ht, ?_⟩
    simp only [JobStates.buckets, List.forall_mem_cons, List.not_mem_nil, false_imp_iff,
      implies_true, and_true] at hbuckets ⊢
    rw [ht]
    obtain ⟨h1, h2, h3, h4, h5, h6, h7, h8, h9, h10, h11, h12, h13, h14, h15, h16, h17⟩ :=
      hbuckets
    exact ⟨bump_le _ _ _ h1, bump_le _ _ _ h2, bump_le _ _ _ h3, bump_le _ _ _ h4,
      bump_le _ _ _ h5, bump_le _ _ _ h6, bump_le _ _ _ h7, bump_le _ _ _ h8,
      bump_le _ _ _ h9, bump_le _ _ _ h10, bump_le _ _ _ h11, bump_le _ _ _ h12,
      bump_le _ _ _ h13, bump_le _ _ _ h14, bump_le _ _ _ h15, bump_le _ _ _ h16,
      bump_le _ _ _ h17⟩

/-- After `job0` and `job1` the total is 2 and no bucket is above it; one more step with
`job2` from those counters makes the total 3 and keeps every bucket at most 3. -/
theorem calculateJobState_counter_invariant_witness :
    [job0, job1].length < 2 ^ 64 ∧
    JobStates.total { total := 2, Running := 1, Pending := 1, Hold := 1 } + 1 < 2 ^ 64 ∧
    (∀ x ∈ JobStates.buckets { total := 2, Running := 1, Pending := 1, Hold := 1 },
      x ≤ JobStates.total { total := 2, Running := 1, Pending := 1, Hold := 1 }) ∧
    (([job0, job1].foldl calculateJobState {}).total = [job0, job1].length ∧
      ∀ x ∈ ([job0, job1].foldl calculateJobState {}).buckets,
        x ≤ ([job0, job1].foldl calculateJobState {}).total) ∧
    ((calculateJobState { total := 2, Running := 1, Pending := 1, Hold := 1 } job2).total =
        JobStates.total { total := 2, Running := 1, Pending := 1, Hold := 1 } + 1 ∧
      ∀ x ∈ (calculateJobState { total := 2, Running := 1, Pending := 1, Hold := 1 }
          job2).buckets,
        x ≤ (calculateJobState { total := 2, Running := 1, Pending := 1, Hold := 1 }
          job2).total) :=
  ⟨by decide, by decide, by decide,
   calculateJobState_counter_invariant [job0, job1]
     { total := 2, Running := 1, Pending := 1, Hold := 1 } job2
     (by decide) (by decide) (by decide)⟩

/-- On success `Collect` sends, after what the channel already held, one gauge point for each
of the 20 exposed fields of the snapshot, in the order of `snapshotFields`, each built on
the descriptor of the same name with the conversion of that same field as its value,
whatever the conversion is. -/
theorem Collect_emits_every_field {F : Type} (float64 : Nat → F) (c : jobCollector)
    (ch : List (Metric F)) (h : (c.slurmClient.List {}).2 = none) :
    (getJobMetrics c.slurmClient).1 = some (calculateJobMetrics (c.slurmClient.List {}).1) ∧
    c.Collect float64 ch =
      some (ch ++ (snapshotFields c (calculateJobMetrics (c.slurmClient.List {}).1)).map
        (gaugePoint float64)) ∧
    (snapshotFields c (calculateJobMetrics (c.slurmClient.List {}).1)).length = 20 ∧
    ∀ p ∈ (snapshotFields c (calculateJobMetrics (c.slurmClient.List {}).1)).map
        (gaugePoint float64), p.valueType = ValueType.GaugeValue := by
  refine ⟨by rw [getJobMetrics_of_success c.slurmClient h], ?_, rfl, ?_⟩
  · unfold jobCollector.Collect
    rw [getJobMetrics_of_success c.slurmClient h]
    simp only [List.append_assoc, List.singleton_append]
    rfl
  · intro p hp
    obtain ⟨f, _, rfl⟩ := List.mem_map.1 hp
    rfl

theorem float64OfUint_of_le (x : Nat) (h : x ≤ 2 ^ 53) : float64OfUint x = x := by
  rcases Nat.lt_or_ge x (2 ^ 53) with hlt | hge
  · have he : float64Shift 64 x = 0 := by
      show (if x < 2 ^ 53 then 0 else float64Shift 63 (x / 2) + 1) = 0
      rw [if_pos hlt]
    unfold float64OfUint
    simp only [he, pow_zero, Nat.div_one, Nat.mod_one, Nat.mul_one, Nat.mul_zero]
    rw [if_neg (by omega)]
  · have hx : x = 2 ^ 53 := le_antisymm h hge
    subst hx
    decide

/-- Claim C18, as stated, fails: for the list of one job that holds `2 ^ 54 + 1` of memory the
`List` call succeeds and `MemoryAlloc` is `2 ^ 54 + 1`, but the point sent on the descriptor
`slurm_jobs_memory_alloc_bytes` carries `2 ^ 54`: `float64` changes the value of the field.
Likewise `float64` of `2 ^ 64 - 1` is `2 ^ 64`. -/
theorem Collect_value_rounded :
    ((clientReturning largeMemoryJobList).List {}).2 = none ∧
    (calculateJobMetrics largeMemoryJobList).JobTres.MemoryAlloc = 2 ^ 54 + 1 ∧
    ((NewJobCollector (clientReturning largeMemoryJobList)).Collect float64OfUint []).map
        (fun ch => ch.map (fun p => (p.desc.fqName, p.value))) =
      some
        [("slurm_jobs_total", 1), ("slurm_jobs_bootfail_total", 0),
         ("slurm_jobs_cancelled_total", 0), ("slurm_jobs_completed_total", 0),
         ("slurm_jobs_deadline_total", 0), ("slurm_jobs_failed_total", 0),
         ("slurm_jobs_pending_total", 0), ("slurm_jobs_preempted_total", 0),
         ("slurm_jobs_running_total", 1), ("slurm_jobs_suspended_total", 0),
         ("slurm_jobs_timeout_total", 0), ("slurm_jobs_nodefail_total", 0),
         ("slurm_jobs_outofmemory_total", 0), ("slurm_jobs_completing_total", 0),
         ("slurm_jobs_configuring_total", 0), ("slurm_jobs_powerupnode_total", 0),
         ("slurm_jobs_stageout_total", 0), ("slurm_jobs_hold_total", 0),
         ("slurm_jobs_cpus_alloc_total", 1), ("slurm_jobs_memory_alloc_bytes", 2 ^ 54)] ∧
    float64OfUint (calculateJobMetrics largeMemoryJobList).JobTres.MemoryAlloc ≠
      (calculateJobMetrics largeMemoryJobList).JobTres.MemoryAlloc ∧
    float64OfUint (2 ^ 64 - 1) = 2 ^ 64 := by
  decide

/-- Claim C18, amended: when the client's `List` call succeeds, `Collect` sends, after what
the channel already held, exactly one point for each of the 20 exposed fields of the snapshot
that `getJobMetrics` returns, in the order JobCount, the twelve base buckets, Completing,
Configuring, PowerUpNode, StageOut, Hold, CpusAlloc, MemoryAlloc; each point is a gauge, is
built on the descriptor of the same name and carries `float64` of that same field, which is
the value of the field unchanged whenever the field is at most `2 ^ 53`. -/
theorem Collect_emits_float64_of_every_field (c : jobCollector) (ch : List (Metric Nat))
    (h : (c.slurmClient.List {}).2 = none) :
    (getJobMetrics c.slurmClient).1 = some (calculateJobMetrics (c.slurmClient.List {}).1) ∧
    c.Collect float64OfUint ch =
      some (ch ++ (snapshotFields c (calculateJobMetrics (c.slurmClient.List {}).1)).map
        (gaugePoint float64OfUint)) ∧
    (snapshotFields c (calculateJobMetrics (c.slurmClient.List {}).1)).length = 20 ∧
    ∀ f ∈ snapshotFields c (calculateJobMetrics (c.slurmClient.List {}).1),
      (gaugePoint float64OfUint f).desc = f.1 ∧
      (gaugePoint float64OfUint f).valueType = ValueType.GaugeValue ∧
      (gaugePoint float64OfUint f).value = float64OfUint f.2 ∧
      (f.2 ≤ 2 ^ 53 → (gaugePoint float64OfUint f).value = f.2) := by
  have hg := Collect_emits_every_field float64OfUint c ch h
  exact ⟨hg.1, hg.2.1, hg.2.2.1,
    fun f _ => ⟨rfl, rfl, rfl, fun hf => float64OfUint_of_le f.2 hf⟩⟩

/-- The collector built on `testDataClient` sends 20 points on an empty channel; the counters
of the fixture are below `2 ^ 53` and the points carry them unchanged: 4 jobs, 2 pending,
2 running, 1 held, 20 cpus, 4096 of memory. -/
theorem Collect_emits_float64_of_every_field_witness :
    (testDataClient.List {}).2 = none ∧
    (NewJobCollector testDataClient).Collect float64OfUint [] =
      some ([] ++ (snapshotFields (NewJobCollector testDataClient)
        (calculateJobMetrics (testDataClient.List {}).1)).map (gaugePoint float64OfUint)) ∧
    ((NewJobCollector testDataClient).Collect float64OfUint []).map
        (fun ch => ch.map Metric.value) =
      some [4, 0, 0, 0, 0, 0, 2, 0, 2, 0, 0, 0, 0, 0, 0, 0, 0, 1, 20, 4096] :=
  ⟨rfl,
   (Collect_emits_float64_of_every_field (NewJobCollector testDataClient) [] rfl).2.1,
   by decide⟩

/-- Claim C19: on an empty job list `calculateJobMetrics` returns the all-zero `JobMetrics`,
and `getJobMetrics` over a client that holds no jobs returns that value and no error. -/
theorem calculateJobMetrics_empty :
    calculateJobMetrics { Items := [] } =
      { JobCount := 0
        JobStates :=
          { total := 0, BootFail := 0, Cancelled := 0, Completed := 0, Deadline := 0,
            Failed := 0, Pending := 0, Preempted := 0, Running := 0, Suspended := 0,
            Timeout := 0, NodeFail := 0, OutOfMemory := 0, Completing := 0, Configuring := 0,
            PowerUpNode := 0, StageOut := 0, Hold := 0 }
        JobTres := { total := 0, CpusAlloc := 0, MemoryAlloc := 0 } } ∧
    getJobMetrics (clientReturning { Items := [] }) =
      (some
        { JobCount := 0
          JobStates :=
            { total := 0, BootFail := 0, Cancelled := 0, Completed := 0, Deadline := 0,
              Failed := 0, Pending := 0, Preempted := 0, Running := 0, Suspended := 0,
              Timeout := 0, NodeFail := 0, OutOfMemory := 0, Completing := 0,
              Configuring := 0, PowerUpNode := 0, StageOut := 0, Hold := 0 }
          JobTres := { total := 0, CpusAlloc := 0, MemoryAlloc := 0 } },
       none) := by
  constructor <;> decide

/-- Claim C20: the accumulators are natural numbers below `2 ^ 64`; for every job list whose
allocation records have cpu counts in the non-negative range of `int32` and which holds
fewer than `2 ^ 32` allocation records, `CpusAlloc` is the exact integer sum of the counts
(which stays below `2 ^ 63`); and whenever the memory amounts are non-negative with a sum
below `2 ^ 64`, `MemoryAlloc` is their exact sum. -/
theorem calculateJobMetrics_no_overflow (jobList : V0043JobInfoList) :
    ((calculateJobMetrics jobList).JobTres.CpusAlloc < 2 ^ 64 ∧
      (calculateJobMetrics jobList).JobTres.MemoryAlloc < 2 ^ 64) ∧
    ((∀ r ∈ allAllocationRecords jobList, 0 ≤ cpuCount r ∧ cpuCount r < 2 ^ 31) →
      (allAllocationRecords jobList).length < 2 ^ 32 →
      (((calculateJobMetrics jobList).JobTres.CpusAlloc : Nat) : Int) =
          ((allAllocationRecords jobList).map cpuCount).sum ∧
        ((allAllocationRecords jobList).map cpuCount).sum < 2 ^ 63) ∧
    ((∀ r ∈ allAllocationRecords jobList, 0 ≤ memoryAllocated r) →
      ((allAllocationRecords jobList).map memoryAllocated).sum < 2 ^ 64 →
      (((calculateJobMetrics jobList).JobTres.MemoryAlloc : Nat) : Int) =
        ((allAllocationRecords jobList).map memoryAllocated).sum) := by
  refine ⟨?_, fun hcpus hrecords => ?_, fun hmemory hmemoryFit =>
    calculateJobMetrics_MemoryAlloc_exact jobList hmemory hmemoryFit⟩
  · rw [calculateJobMetrics_JobTres]
    exact ⟨Nat.mod_lt _ (by norm_num), Nat.mod_lt _ (by norm_num)⟩
  · have hle := sum_map_le_length_mul cpuCount (allAllocationRecords jobList) (2 ^ 31)
      (fun r hr => le_of_lt (hcpus r hr).2)
    have hlen : ((allAllocationRecords jobList).length : Int) < 2 ^ 32 := by
      exact_mod_cast hrecords
    have hlen0 : (0 : Int) ≤ ((allAllocationRecords jobList).length : Int) :=
      Int.natCast_nonneg _
    have hbound : ((allAllocationRecords jobList).map cpuCount).sum < 2 ^ 63 := by nlinarith
    exact ⟨calculateJobMetrics_CpusAlloc_exact jobList (fun r hr => (hcpus r hr).1)
      (by omega), hbound⟩

/-- The fixture `jobList` has three allocation records, counts 8, 8, 4 and amounts 1024,
1024, 2048: `CpusAlloc` is 20 and `MemoryAlloc` is 4096. -/
theorem calculateJobMetrics_no_overflow_witness :
    (∀ r ∈ allAllocationRecords jobList, 0 ≤ cpuCount r ∧ cpuCount r < 2 ^ 31) ∧
    (allAllocationRecords jobList).length = 3 ∧
    (∀ r ∈ allAllocationRecords jobList, 0 ≤ memoryAllocated r) ∧
    ((allAllocationRecords jobList).map cpuCount).sum = 20 ∧
    ((allAllocationRecords jobList).map memoryAllocated).sum = 4096 ∧
    (((calculateJobMetrics jobList).JobTres.CpusAlloc : Nat) : Int) = 20 ∧
    (((calculateJobMetrics jobList).JobTres.MemoryAlloc : Nat) : Int) = 4096 :=
  ⟨by decide, by decide, by decide, by decide, by decide,
   ((calculateJobMetrics_no_overflow jobList).2.1 (by decide) (by decide)).1,
   (calculateJobMetrics_no_overflow jobList).2.2 (by decide) (by decide)⟩

/-! ## Incomplete and negative allocation records -/

theorem getJobResourceAlloc_lt (job : V0043JobInfo) :
    (getJobResourceAlloc job).Cpus < 2 ^ 64 ∧ (getJobResourceAlloc job).Memory < 2 ^ 64 := by
  rw [getJobResourceAlloc_eq]
  exact ⟨Nat.mod_lt _ (by norm_num), Nat.mod_lt _ (by norm_num)⟩

theorem getJobResourceAlloc_append (state : Option (List V0043JobInfoJobState))
    (hold : Option Bool) (rs : List V0043JobResNode) (r : V0043JobResNode) :
    getJobResourceAlloc (jobWithRecords state hold (rs ++ [r])) =
      { Cpus := uintAdd (getJobResourceAlloc (jobWithRecords state hold rs)).Cpus
          (uintOfInt (cpuCount r))
        Memory := uintAdd (getJobResourceAlloc (jobWithRecords state hold rs)).Memory
          (uintOfInt (memoryAllocated r)) } := by
  simp only [getJobResourceAlloc_eq]
  show jobResources.mk (((rs ++ [r]).map _).sum % 2 ^ 64) (((rs ++ [r]).map _).sum % 2 ^ 64) =
    jobResources.mk (uintAdd ((rs.map _).sum % 2 ^ 64) _) (uintAdd ((rs.map _).sum % 2 ^ 64) _)
  simp only [List.map_append, List.sum_append, List.map_cons, List.map_nil, List.sum_cons,
    List.sum_nil, Nat.add_zero, uintAdd]
  congr 1 <;> omega

theorem sum_uintOfInt_emod {α : Type} (f : α → Int) (l : List α) :
    (((l.map (fun x => uintOfInt (f x))).sum % 2 ^ 64 : Nat) : Int) =
      (l.map f).sum % 2 ^ 64 := by
  induction l with
  | nil => rfl
  | cons a l ih =>
    simp only [List.map_cons, List.sum_cons]
    have ha : ((uintOfInt (f a) : Nat) : Int) = f a % 2 ^ 64 := by
      unfold uintOfInt
      exact Int.toNat_of_nonneg (Int.emod_nonneg _ (by norm_num))
    omega

/-- Claim C21: `getJobResourceAlloc` is a total function whose `Cpus` and `Memory` are the
`uint` sums over the records of the cpu count and of the memory amount, where an absent
`Cpus` or `Cpus.Count` counts 0 cpus and an absent `Memory` or `Memory.Allocated` counts 0
memory; a record with memory data and no cpu data adds its memory and leaves `Cpus` as it
was, a record with cpu data and no memory data adds its cpus and leaves `Memory` as it was,
and a record with neither changes nothing. -/
theorem getJobResourceAlloc_incomplete_records (job : V0043JobInfo)
    (state : Option (List V0043JobInfoJobState)) (hold : Option Bool)
    (rs : List V0043JobResNode) (cpus : V0043JobResNodeCpus)
    (memory : V0043JobResNodeMemory) (used : Option Int) :
    getJobResourceAlloc job =
      { Cpus := ((allocationRecords job).map (fun r => uintOfInt (cpuCount r))).sum % 2 ^ 64
        Memory :=
          ((allocationRecords job).map (fun r => uintOfInt (memoryAllocated r))).sum
            % 2 ^ 64 } ∧
    cpuCount { Cpus := none, Memory := some memory } = 0 ∧
    cpuCount { Cpus := some { Count := none, Used := used }, Memory := some memory } = 0 ∧
    memoryAllocated { Cpus := some cpus, Memory := none } = 0 ∧
    memoryAllocated { Cpus := some cpus, Memory := some { Allocated := none, Used := used } }
      = 0 ∧
    getJobResourceAlloc
        (jobWithRecords state hold (rs ++ [{ Cpus := none, Memory := some memory }])) =
      { Cpus := (getJobResourceAlloc (jobWithRecords state hold rs)).Cpus
        Memory := uintAdd (getJobResourceAlloc (jobWithRecords state hold rs)).Memory
          (uintOfInt (memory.Allocated.getD 0)) } ∧
    getJobResourceAlloc (jobWithRecords state hold
        (rs ++ [{ Cpus := some { Count := none, Used := used }, Memory := some memory }])) =
      { Cpus := (getJobResourceAlloc (jobWithRecords state hold rs)).Cpus
        Memory := uintAdd (getJobResourceAlloc (jobWithRecords state hold rs)).Memory
          (uintOfInt (memory.Allocated.getD 0)) } ∧
    getJobResourceAlloc
        (jobWithRecords state hold (rs ++ [{ Cpus := some cpus, Memory := none }])) =
      { Cpus := uintAdd (getJobResourceAlloc (jobWithRecords state hold rs)).Cpus
          (uintOfInt (cpus.Count.getD 0))
        Memory := (getJobResourceAlloc (jobWithRecords state hold rs)).Memory } ∧
    getJobResourceAlloc (jobWithRecords state hold
        (rs ++ [{ Cpus := some cpus, Memory := some { Allocated := none, Used := used } }])) =
      { Cpus := uintAdd (getJobResourceAlloc (jobWithRecords state hold rs)).Cpus
          (uintOfInt (cpus.Count.getD 0))
        Memory := (getJobResourceAlloc (jobWithRecords state hold rs)).Memory } ∧
    getJobResourceAlloc
        (jobWithRecords state hold (rs ++ [{ Cpus := none, Memory := none }])) =
      getJobResourceAlloc (jobWithRecords state hold rs) := by
  have hlt := getJobResourceAlloc_lt (jobWithRecords state hold rs)
  have hz : ∀ x, x < 2 ^ 64 → uintAdd x (uintOfInt 0) = x := fun x hx => Nat.mod_eq_of_lt hx
  refine ⟨getJobResourceAlloc_eq job, rfl, rfl, rfl, rfl, ?_, ?_, ?_, ?_, ?_⟩ <;>
    rw [getJobResourceAlloc_append]
  · show jobResources.mk (uintAdd _ (uintOfInt 0)) _ = _
    rw [hz _ hlt.1]; rfl
  · show jobResources.mk (uintAdd _ (uintOfInt 0)) _ = _
    rw [hz _ hlt.1]; rfl
  · show jobResources.mk _ (uintAdd _ (uintOfInt 0)) = _
    rw [hz _ hlt.2]; rfl
  · show jobResources.mk _ (uintAdd _ (uintOfInt 0)) = _
    rw [hz _ hlt.2]; rfl
  · show jobResources.mk (uintAdd _ (uintOfInt 0)) (uintAdd _ (uintOfInt 0)) = _
    rw [hz _ hlt.1, hz _ hlt.2]

/-! ## One read per collection -/

/-- Claim C22: `getJobMetrics` leaves the client in the state that exactly one `List` call, on
the empty list object, leaves it in, and returns what is computed from the answer to that one
call; a client that logs its calls has exactly one more `List` entry after `getJobMetrics`,
whether the call succeeds (`testDataClient`) or fails (`testFailClient`). -/
theorem getJobMetrics_one_List_call {σ : Type} (slurmClient : StatefulClient σ) (s : σ)
    (inner : Client) (calls : List V0043JobInfoList) :
    (getJobMetricsStateful slurmClient s).1 = (slurmClient.List s {}).1 ∧
    (getJobMetricsStateful slurmClient s).2 = getJobMetrics (slurmClient.answer s) ∧
    (getJobMetricsStateful (recordingClient inner) calls).1 = calls ++ [{ Items := [] }] ∧
    (getJobMetricsStateful (recordingClient inner) calls).2 = getJobMetrics inner ∧
    (getJobMetricsStateful (recordingClient testFailClient) []).1 = [{ Items := [] }] ∧
    (getJobMetricsStateful (recordingClient testDataClient) []).1 = [{ Items := [] }] := by
  have key : ∀ {τ : Type} (c : StatefulClient τ) (t : τ),
      (getJobMetricsStateful c t).1 = (c.List t {}).1 ∧
      (getJobMetricsStateful c t).2 = getJobMetrics (c.answer t) := by
    intro τ c t
    simp only [getJobMetricsStateful, getJobMetrics, StatefulClient.answer]
    rcases c.List t {} with ⟨t2, l, _ | e⟩
    · exact ⟨rfl, rfl⟩
    · exact ⟨rfl, rfl⟩
  refine ⟨(key slurmClient s).1, (key slurmClient s).2, (key (recordingClient inner) calls).1,
    (key (recordingClient inner) calls).2, by decide, by decide⟩

/-! ## The metric schema -/

theorem NewJobCollector_descriptors (c : Client) :
    (NewJobCollector c).descriptors = (NewJobCollector testDataClient).descriptors := rfl

/-- Claim C23, as stated, fails: the descriptor of the job count is not named
`scheduler_jobs_total`, and no descriptor of the collector has that name. -/
theorem schema_not_scheduler_names :
    (NewJobCollector testDataClient).JobCount.fqName ≠ "scheduler_jobs_total" ∧
    (NewJobCollector testDataClient).JobCount.fqName = "slurm_jobs_total" ∧
    "scheduler_jobs_total" ∉ (NewJobCollector testDataClient).descriptors.map Desc.fqName := by
  decide

/-- Claim C23, amended: the schema declared by `NewJobCollector` names the job count
`slurm_jobs_total`, each of the twelve base buckets and each flag bucket (Hold included)
`slurm_jobs_` followed by the bucket in lower case and `_total`, the allocated cpus
`slurm_jobs_cpus_alloc_total` and the allocated memory `slurm_jobs_memory_alloc_bytes`. -/
theorem schema_slurm_names (slurmClient : Client) :
    (NewJobCollector slurmClient).descriptors.map Desc.fqName =
      ["slurm_jobs_total"] ++
      (baseStateLabels ++ flagLabels).map (fun x => "slurm_jobs_" ++ x ++ "_total") ++
      ["slurm_jobs_cpus_alloc_total", "slurm_jobs_memory_alloc_bytes"] ∧
    (NewJobCollector slurmClient).JobCount.fqName = "slurm_jobs_total" ∧
    (NewJobCollector slurmClient).JobStates.BootFail.fqName = "slurm_jobs_bootfail_total" ∧
    (NewJobCollector slurmClient).JobStates.OutOfMemory.fqName =
      "slurm_jobs_outofmemory_total" ∧
    (NewJobCollector slurmClient).JobStates.Completing.fqName =
      "slurm_jobs_completing_total" ∧
    (NewJobCollector slurmClient).JobStates.Hold.fqName = "slurm_jobs_hold_total" ∧
    (NewJobCollector slurmClient).JobTres.CpusAlloc.fqName = "slurm_jobs_cpus_alloc_total" ∧
    (NewJobCollector slurmClient).JobTres.MemoryAlloc.fqName =
      "slurm_jobs_memory_alloc_bytes" := by
  refine ⟨?_, rfl, rfl, rfl, rfl, rfl, rfl, rfl⟩
  rw [NewJobCollector_descriptors]
  decide

/-- Claim C24: for every job the returned `Cpus` is the integer sum of the records' cpu counts
reduced modulo `2 ^ 64`, and `Memory` likewise for the memory amounts: nothing is clamped. A
single record of count -1 gives `2 ^ 64 - 1`, records of counts 8 and -1 give 7. -/
theorem getJobResourceAlloc_wraps (job : V0043JobInfo) :
    (((getJobResourceAlloc job).Cpus : Nat) : Int) =
      ((allocationRecords job).map cpuCount).sum % 2 ^ 64 ∧
    (((getJobResourceAlloc job).Memory : Nat) : Int) =
      ((allocationRecords job).map memoryAllocated).sum % 2 ^ 64 ∧
    (getJobResourceAlloc (jobWithRecords none none
      [{ Cpus := some { Count := some (-1) } }])).Cpus = 2 ^ 64 - 1 ∧
    (getJobResourceAlloc (jobWithRecords none none
      [{ Cpus := some { Count := some 8 } }, { Cpus := some { Count := some (-1) } }])).Cpus
      = 7 := by
  refine ⟨?_, ?_, by decide, by decide⟩
  · rw [getJobResourceAlloc_eq]
    exact sum_uintOfInt_emod cpuCount _
  · rw [getJobResourceAlloc_eq]
    exact sum_uintOfInt_emod memoryAllocated _

/-! ## Sets of tokens, concatenation, independence -/

/-- Claim C25: two jobs with the same `Hold` whose `JobState` lists have the same members, in
any order and with any repetition, give the same counters. -/
theorem calculateJobState_set_only (metrics : JobStates) (first second : V0043JobInfo)
    (hhold : first.Hold = second.Hold)
    (hset : ∀ t, t ∈ first.GetStateAsSet ↔ t ∈ second.GetStateAsSet) :
    calculateJobState metrics first = calculateJobState metrics second := by
  apply calculateJobState_congr
  · intro t _
    unfold StateSet.Has
    rw [decide_eq_decide]
    exact hset t
  · rw [hhold]

/-- A job listing RUNNING, PENDING and a job listing PENDING, RUNNING, PENDING have the same
counters, and RUNNING before PENDING is counted as Pending, like PENDING before RUNNING. -/
theorem calculateJobState_set_only_witness :
    (V0043JobInfo.mk (some [.RUNNING, .PENDING]) none none).Hold =
      (V0043JobInfo.mk (some [.PENDING, .RUNNING, .PENDING]) none none).Hold ∧
    (∀ t, t ∈ (V0043JobInfo.mk (some [.RUNNING, .PENDING]) none none).GetStateAsSet ↔
      t ∈ (V0043JobInfo.mk (some [.PENDING, .RUNNING, .PENDING]) none none).GetStateAsSet) ∧
    calculateJobState {} { JobState := some [.RUNNING, .PENDING] } =
      calculateJobState {} { JobState := some [.PENDING, .RUNNING, .PENDING] } ∧
    calculateJobState {} { JobState := some [.RUNNING, .PENDING] } =
      { total := 1, Pending := 1 } ∧
    calculateJobState {} { JobState := some [.PENDING, .RUNNING] } =
      { total := 1, Pending := 1 } :=
  ⟨rfl, fun t => by cases t <;> decide,
   calculateJobState_set_only {} { JobState := some [.RUNNING, .PENDING] }
     { JobState := some [.PENDING, .RUNNING, .PENDING] } rfl
     (fun t => by cases t <;> decide),
   by decide, by decide⟩

theorem uintAdd_mod_mod (x y : Nat) :
    uintAdd (x % 2 ^ 64) (y % 2 ^ 64) = (x + y) % 2 ^ 64 := by
  unfold uintAdd
  omega

theorem uintOfInt_natCast (n : Nat) : uintOfInt (n : Int) = n % 2 ^ 64 := by
  unfold uintOfInt
  omega

theorem calculateJobMetrics_closed (jobs : List V0043JobInfo) :
    calculateJobMetrics { Items := jobs } =
      { JobCount := jobs.length % 2 ^ 64
        JobStates :=
          { total := jobs.length % 2 ^ 64
            BootFail := jobs.countP (fun job => wins job.GetStateAsSet .BootFail) % 2 ^ 64
            Cancelled := jobs.countP (fun job => wins job.GetStateAsSet .Cancelled) % 2 ^ 64
            Completed := jobs.countP (fun job => wins job.GetStateAsSet .Completed) % 2 ^ 64
            Deadline := jobs.countP (fun job => wins job.GetStateAsSet .Deadline) % 2 ^ 64
            Failed := jobs.countP (fun job => wins job.GetStateAsSet .Failed) % 2 ^ 64
            Pending := jobs.countP (fun job => wins job.GetStateAsSet .Pending) % 2 ^ 64
            Preempted := jobs.countP (fun job => wins job.GetStateAsSet .Preempted) % 2 ^ 64
            Running := jobs.countP (fun job => wins job.GetStateAsSet .Running) % 2 ^ 64
            Suspended := jobs.countP (fun job => wins job.GetStateAsSet .Suspended) % 2 ^ 64
            Timeout := jobs.countP (fun job => wins job.GetStateAsSet .Timeout) % 2 ^ 64
            NodeFail := jobs.countP (fun job => wins job.GetStateAsSet .NodeFail) % 2 ^ 64
            OutOfMemory :=
              jobs.countP (fun job => wins job.GetStateAsSet .OutOfMemory) % 2 ^ 64
            Completing := jobs.countP (fun job => job.GetStateAsSet.Has .COMPLETING) % 2 ^ 64
            Configuring :=
              jobs.countP (fun job => job.GetStateAsSet.Has .CONFIGURING) % 2 ^ 64
            PowerUpNode :=
              jobs.countP (fun job => job.GetStateAsSet.Has .POWERUPNODE) % 2 ^ 64
            StageOut := jobs.countP (fun job => job.GetStateAsSet.Has .STAGEOUT) % 2 ^ 64
            Hold := jobs.countP (fun job => job.Hold.getD false) % 2 ^ 64 }
        JobTres :=
          { total := jobs.length % 2 ^ 64
            CpusAlloc := (jobs.map (fun j => (getJobResourceAlloc j).Cpus)).sum % 2 ^ 64
            MemoryAlloc :=
              (jobs.map (fun j => (getJobResourceAlloc j).Memory)).sum % 2 ^ 64 } } := by
  have hT := calculateJobMetrics_JobTres { Items := jobs }
  rw [calculateJobMetrics_eq] at hT ⊢
  simp only at hT
  rw [hT, foldl_calculateJobState_zero, uintOfInt_natCast]

/-- Claim C26: for all job lists `a` and `b`, every field of `calculateJobMetrics (a ++ b)`
(`JobCount`, both totals, the seventeen state buckets, `CpusAlloc`, `MemoryAlloc`) is the sum
modulo `2 ^ 64` of the same field of `calculateJobMetrics a` and `calculateJobMetrics b`. -/
theorem calculateJobMetrics_append (a b : List V0043JobInfo) :
    calculateJobMetrics { Items := a ++ b } =
      (calculateJobMetrics { Items := a }).add (calculateJobMetrics { Items := b }) := by
  simp only [calculateJobMetrics_closed, JobMetrics.add, uintAdd_mod_mod, List.length_append,
    List.countP_append, List.map_append, List.sum_append]

/-- Claim C27: changing the state tokens and `Hold` of a job changes neither what
`getJobResourceAlloc` returns nor what `calculateJobTres` adds, and changing the
`JobResources` of a job changes nothing in what `calculateJobState` does; `job0` turned into
a Pending, Completed or Cancelled job still counts its 8 cpus and 1024 of memory. -/
theorem state_and_resources_do_not_interfere (job : V0043JobInfo)
    (state : Option (List V0043JobInfoJobState)) (hold : Option Bool)
    (resources : Option V0043JobRes) (states : JobStates) (tres : JobTres) :
    getJobResourceAlloc { job with JobState := state, Hold := hold } =
      getJobResourceAlloc job ∧
    calculateJobTres tres { job with JobState := state, Hold := hold } =
      calculateJobTres tres job ∧
    calculateJobState states { job with JobResources := resources } =
      calculateJobState states job ∧
    getJobResourceAlloc { job0 with JobState := some [.PENDING] } =
      { Cpus := 8, Memory := 1024 } ∧
    getJobResourceAlloc { job0 with JobState := some [.COMPLETED] } =
      { Cpus := 8, Memory := 1024 } ∧
    getJobResourceAlloc { job0 with JobState := some [.CANCELLED] } =
      { Cpus := 8, Memory := 1024 } := by
  exact ⟨rfl, rfl, rfl, by decide, by decide, by decide⟩

/-- Claim C28: the 20 descriptors built by `NewJobCollector` have pairwise distinct metric
names, and none declares a variable label or a constant label. -/
theorem schema_names_distinct (slurmClient : Client) :
    (NewJobCollector slurmClient).descriptors.length = 20 ∧
    ((NewJobCollector slurmClient).descriptors.map Desc.fqName).Nodup ∧
    ∀ d ∈ (NewJobCollector slurmClient).descriptors,
      d.variableLabels = [] ∧ d.constLabels = [] := by
  rw [NewJobCollector_descriptors]
  exact ⟨rfl, by decide, by decide⟩

end Collector
